import Mathlib

/-!
Shallow embedding of ql/CashFlows/cashflowvectors.cpp (the QuantLib
coupon-vector builders) together with proofs of the properties stated in
the design document.

Modelling conventions:
* a date is a serial day number (Int); a tenor is likewise an Int offset,
  because the builders only ever add the tenor to a date or subtract it;
* a calendar is represented by its business-day adjustment function;
* a day counter is identified by an optional tag (none models a
  default-constructed, empty DayCounter);
* Real, Rate and Spread are modelled as rational numbers;
* the opaque collaborators (swap index, pricer, swaption-volatility
  handle) are modelled as plain identifiers, because the builders only
  store them into coupons;
* QL_REQUIRE / QL_FAIL failures are modelled with Except String.
-/

namespace QuantLib

abbrev Date := Int

abbrev BusinessDayConvention := Nat

/-- A calendar, as used by the builders, is just its adjustment function. -/
structure Calendar where
  adjust : Date → BusinessDayConvention → Date

/-- A day counter identified by a tag; none models an empty DayCounter. -/
abbrev DayCounter := Option Nat

/-- The Schedule interface consumed by cashflowvectors.cpp: an ordered list
of dates, the per-period regularity flags, the nominal tenor, the calendar
and the business-day convention the schedule was generated with. -/
structure Schedule where
  dates : List Date
  regularFlags : Nat → Bool
  tenor : Int
  calendar : Calendar
  businessDayConvention : BusinessDayConvention

def Schedule.size (s : Schedule) : Nat := s.dates.length

def Schedule.date (s : Schedule) (i : Nat) : Date := s.dates.getD i 0

def Schedule.isRegular (s : Schedule) (i : Nat) : Bool := s.regularFlags i

/-- Sentinel modelling the magic number Null<Real>(); its exact value is
irrelevant to the builders, which only pass it through into coupons. -/
def NullReal : ℚ := 340282346638528859811704183484516925440

/-- The parameter broadcaster of cashflowvectors.cpp (lines 151-160):
empty array gives the default, an in-range index gives that element,
an out-of-range index gives the last element. -/
def get (v : List ℚ) (i : Nat) (defaultValue : ℚ) : ℚ :=
  if v.isEmpty then
    defaultValue
  else if i < v.length then
    v.getD i defaultValue
  else
    v.getLastD defaultValue

/-- A fixed-rate coupon, with the fields the constructor call sites of
cashflowvectors.cpp provide, in their order. -/
structure FixedRateCoupon where
  nominal : ℚ
  paymentDate : Date
  rate : ℚ
  dayCounter : DayCounter
  accrualStart : Date
  accrualEnd : Date
  refPeriodStart : Date
  refPeriodEnd : Date
deriving DecidableEq

/-- A CMS coupon, with the fields the constructor call sites of
cashflowvectors.cpp provide, in their order; swaptionVol is the handle
attached by the post-construction loop (none until attached). -/
structure CMSCoupon where
  nominal : ℚ
  paymentDate : Date
  index : Nat
  accrualStart : Date
  accrualEnd : Date
  fixingDays : Int
  dayCounter : DayCounter
  pricer : Nat
  gearing : ℚ
  spread : ℚ
  cap : ℚ
  floor : ℚ
  meanReversion : ℚ
  refPeriodStart : Date
  refPeriodEnd : Date
  isInArrears : Bool
  swaptionVol : Option Nat
deriving DecidableEq

/-- The CashFlow base type: a leg element is dynamically either a
fixed-rate coupon or a CMS coupon (the dynamic_pointer_cast target). -/
inductive CashFlow where
  | fixed : FixedRateCoupon → CashFlow
  | cms : CMSCoupon → CashFlow
deriving DecidableEq

def CashFlow.nominal : CashFlow → ℚ
  | .fixed c => c.nominal
  | .cms c => c.nominal

def CashFlow.paymentDate : CashFlow → Date
  | .fixed c => c.paymentDate
  | .cms c => c.paymentDate

def CashFlow.accrualStart : CashFlow → Date
  | .fixed c => c.accrualStart
  | .cms c => c.accrualStart

def CashFlow.accrualEnd : CashFlow → Date
  | .fixed c => c.accrualEnd
  | .cms c => c.accrualEnd

def CashFlow.refPeriodStart : CashFlow → Date
  | .fixed c => c.refPeriodStart
  | .cms c => c.refPeriodStart

def CashFlow.refPeriodEnd : CashFlow → Date
  | .fixed c => c.refPeriodEnd
  | .cms c => c.refPeriodEnd

/-- Default element used with List.getD when indexing a leg. -/
def dummyCashFlow : CashFlow := CashFlow.fixed ⟨0, 0, 0, none, 0, 0, 0, 0⟩

/-- The push_back sequence common to all builders: the first-period coupon,
then one coupon per source loop index i in [2, 2+n), then the coupons of
the optional last-period block. Instantiated with n = size - 3, so the
middle loop runs for 2 <= i < size - 1 as in the source. -/
def buildLeg (first : CashFlow) (middle : Nat → CashFlow)
    (lastPart : List CashFlow) (n : Nat) : List CashFlow :=
  first :: ((List.range' 2 n).map middle ++ lastPart)

/-- First-period coupon of FixedRateCouponVector (lines 45-68). The day
count question of the regular branch (the QL_REQUIRE at lines 51-54) is
handled in FixedRateCouponVector itself; this definition only builds the
coupon that is pushed. -/
def fixedFirstCoupon (s : Schedule) (paymentAdjustment : BusinessDayConvention)
    (nominals couponRates : List ℚ)
    (dayCount firstPeriodDayCount : DayCounter) : CashFlow :=
  let startDate := s.date 0
  let endDate := s.date 1
  let paymentDate := s.calendar.adjust endDate paymentAdjustment
  let rate := couponRates.getD 0 0
  let nominal := nominals.getD 0 0
  if s.isRegular 1 then
    CashFlow.fixed ⟨nominal, paymentDate, rate, dayCount,
      startDate, endDate, startDate, endDate⟩
  else
    let reference := s.calendar.adjust (endDate - s.tenor)
      s.businessDayConvention
    let dc := if firstPeriodDayCount.isNone then dayCount
              else firstPeriodDayCount
    CashFlow.fixed ⟨nominal, paymentDate, rate, dc,
      startDate, endDate, reference, endDate⟩

/-- Middle-period coupon of FixedRateCouponVector at source loop index i
(lines 70-84); the start date carries the end date of the previous
iteration, which is date (i-1). -/
def fixedMiddleCoupon (s : Schedule) (paymentAdjustment : BusinessDayConvention)
    (nominals couponRates : List ℚ) (dayCount : DayCounter) (i : Nat) :
    CashFlow :=
  let startDate := s.date (i - 1)
  let endDate := s.date i
  let paymentDate := s.calendar.adjust endDate paymentAdjustment
  let rate := if i - 1 < couponRates.length then couponRates.getD (i - 1) 0
              else couponRates.getLastD 0
  let nominal := if i - 1 < nominals.length then nominals.getD (i - 1) 0
                 else nominals.getLastD 0
  CashFlow.fixed ⟨nominal, paymentDate, rate, dayCount,
    startDate, endDate, startDate, endDate⟩

/-- Last-period block of FixedRateCouponVector (lines 85-112), empty when
the schedule has only two dates. -/
def fixedLastCoupons (s : Schedule) (paymentAdjustment : BusinessDayConvention)
    (nominals couponRates : List ℚ) (dayCount : DayCounter) : List CashFlow :=
  if s.size > 2 then
    let N := s.size
    let startDate := s.date (N - 2)
    let endDate := s.date (N - 1)
    let paymentDate := s.calendar.adjust endDate paymentAdjustment
    let rate := if N - 2 < couponRates.length then couponRates.getD (N - 2) 0
                else couponRates.getLastD 0
    let nominal := if N - 2 < nominals.length then nominals.getD (N - 2) 0
                   else nominals.getLastD 0
    if s.isRegular (N - 1) then
      [CashFlow.fixed ⟨nominal, paymentDate, rate, dayCount,
        startDate, endDate, startDate, endDate⟩]
    else
      let reference := s.calendar.adjust (startDate + s.tenor)
        s.businessDayConvention
      [CashFlow.fixed ⟨nominal, paymentDate, rate, dayCount,
        startDate, endDate, startDate, reference⟩]
  else []

/-- The leg pushed by FixedRateCouponVector when no requirement fails. -/
def FixedRawLeg (s : Schedule) (paymentAdjustment : BusinessDayConvention)
    (nominals couponRates : List ℚ)
    (dayCount firstPeriodDayCount : DayCounter) : List CashFlow :=
  buildLeg (fixedFirstCoupon s paymentAdjustment nominals couponRates
              dayCount firstPeriodDayCount)
           (fixedMiddleCoupon s paymentAdjustment nominals couponRates dayCount)
           (fixedLastCoupons s paymentAdjustment nominals couponRates dayCount)
           (s.size - 3)

/-- FixedRateCouponVector (lines 31-114). The QL_REQUIRE of the regular
first-period branch (lines 51-54) fires before any coupon is observable,
so it is hoisted next to the two eager requirements; the observable
behaviour (error raised vs leg returned) is unchanged. -/
def FixedRateCouponVector (s : Schedule)
    (paymentAdjustment : BusinessDayConvention)
    (nominals couponRates : List ℚ)
    (dayCount firstPeriodDayCount : DayCounter) :
    Except String (List CashFlow) :=
  if couponRates.isEmpty then
    Except.error ("coupon rates not specified")
  else if nominals.isEmpty then
    Except.error ("nominals not specified")
  else if s.isRegular 1
      && !(firstPeriodDayCount.isNone || firstPeriodDayCount == dayCount) then
    Except.error ("regular first coupon does not allow a first-period day count")
  else
    Except.ok (FixedRawLeg s paymentAdjustment nominals couponRates
      dayCount firstPeriodDayCount)

/-- A CMSCoupon constructor call, with the arguments in the order of the
call sites of cashflowvectors.cpp; inArrears is the trailing constructor
argument, defaulted to false at the call sites that omit it; swaptionVol
starts unset and is attached by the post-construction loop. -/
def mkCMSCoupon (nominal : ℚ) (paymentDate : Date) (index : Nat)
    (startDate endDate : Date) (fixingDays : Int) (dayCounter : DayCounter)
    (pricer : Nat) (gearing spread cap floor meanReversion : ℚ)
    (refStart refEnd : Date) (inArrears : Bool) : CashFlow :=
  CashFlow.cms ⟨nominal, paymentDate, index, startDate, endDate, fixingDays,
    dayCounter, pricer, gearing, spread, cap, floor, meanReversion,
    refStart, refEnd, inArrears, none⟩

/-- First-period coupon of CMSCouponVector (lines 187-214). -/
def cmsFirstCoupon (s : Schedule) (paymentAdjustment : BusinessDayConvention)
    (nominals : List ℚ) (index : Nat) (settlementDays : Int)
    (dayCounter : DayCounter)
    (gearings spreads caps floors meanReversions : List ℚ)
    (pricer : Nat) : CashFlow :=
  let startDate := s.date 0
  let endDate := s.date 1
  let paymentDate := s.calendar.adjust endDate paymentAdjustment
  if s.isRegular 1 then
    mkCMSCoupon (get nominals 0 NullReal) paymentDate index
      startDate endDate settlementDays dayCounter pricer
      (get gearings 0 1) (get spreads 0 0)
      (get caps 0 NullReal) (get floors 0 NullReal)
      (get meanReversions 0 NullReal) startDate endDate false
  else
    let reference := s.calendar.adjust (endDate - s.tenor) paymentAdjustment
    mkCMSCoupon (get nominals 0 NullReal) paymentDate index
      startDate endDate settlementDays dayCounter pricer
      (get gearings 0 1) (get spreads 0 0)
      (get caps 0 NullReal) (get floors 0 NullReal)
      (get meanReversions 0 NullReal) reference endDate false

/-- Middle-period coupon of CMSCouponVector at source loop index i
(lines 216-228); the start date carries the end of the previous
iteration, which is date (i-1). -/
def cmsMiddleCoupon (s : Schedule) (paymentAdjustment : BusinessDayConvention)
    (nominals : List ℚ) (index : Nat) (settlementDays : Int)
    (dayCounter : DayCounter)
    (gearings spreads caps floors meanReversions : List ℚ)
    (pricer : Nat) (i : Nat) : CashFlow :=
  let startDate := s.date (i - 1)
  let endDate := s.date i
  let paymentDate := s.calendar.adjust endDate paymentAdjustment
  mkCMSCoupon (get nominals (i - 1) NullReal) paymentDate index
    startDate endDate settlementDays dayCounter pricer
    (get gearings (i - 1) 1) (get spreads (i - 1) 0)
    (get caps (i - 1) NullReal) (get floors (i - 1) NullReal)
    (get meanReversions (i - 1) NullReal) startDate endDate false

/-- Last-period block of CMSCouponVector (lines 229-257). -/
def cmsLastCoupons (s : Schedule) (paymentAdjustment : BusinessDayConvention)
    (nominals : List ℚ) (index : Nat) (settlementDays : Int)
    (dayCounter : DayCounter)
    (gearings spreads caps floors meanReversions : List ℚ)
    (pricer : Nat) : List CashFlow :=
  if s.size > 2 then
    let N := s.size
    let startDate := s.date (N - 2)
    let endDate := s.date (N - 1)
    let paymentDate := s.calendar.adjust endDate paymentAdjustment
    if s.isRegular (N - 1) then
      [mkCMSCoupon (get nominals (N - 2) NullReal) paymentDate index
        startDate endDate settlementDays dayCounter pricer
        (get gearings (N - 2) 1) (get spreads (N - 2) 0)
        (get caps (N - 2) NullReal) (get floors (N - 2) NullReal)
        (get meanReversions (N - 2) NullReal) startDate endDate false]
    else
      let reference := s.calendar.adjust (startDate + s.tenor)
        paymentAdjustment
      [mkCMSCoupon (get nominals (N - 2) NullReal) paymentDate index
        startDate endDate settlementDays dayCounter pricer
        (get gearings (N - 2) 1) (get spreads (N - 2) 0)
        (get caps (N - 2) NullReal) (get floors (N - 2) NullReal)
        (get meanReversions (N - 2) NullReal) startDate reference false]
  else []

/-- The leg assembled by CMSCouponVector before volatility attachment. -/
def CMSRawLeg (s : Schedule) (paymentAdjustment : BusinessDayConvention)
    (nominals : List ℚ) (index : Nat) (settlementDays : Int)
    (dayCounter : DayCounter)
    (gearings spreads caps floors meanReversions : List ℚ)
    (pricer : Nat) : List CashFlow :=
  buildLeg (cmsFirstCoupon s paymentAdjustment nominals index settlementDays
              dayCounter gearings spreads caps floors meanReversions pricer)
           (cmsMiddleCoupon s paymentAdjustment nominals index settlementDays
              dayCounter gearings spreads caps floors meanReversions pricer)
           (cmsLastCoupons s paymentAdjustment nominals index settlementDays
              dayCounter gearings spreads caps floors meanReversions pricer)
           (s.size - 3)

/-- The post-construction attachment loop of the CMS builders (lines
259-266, 364-371, 473-480): cast each element to CMSCoupon, attach the
shared volatility handle, fail if the cast fails. -/
def attachSwaptionVolatility (leg : List CashFlow) (vol : Nat) :
    Except String (List CashFlow) :=
  match leg with
  | [] => Except.ok []
  | cf :: rest =>
    match cf with
    | CashFlow.cms c =>
      match attachSwaptionVolatility rest vol with
      | Except.ok rest2 =>
        Except.ok (CashFlow.cms { c with swaptionVol := some vol } :: rest2)
      | Except.error e => Except.error e
    | _ => Except.error ("unexpected error when casting to CMSCoupon")

/-- CMSCouponVector (lines 164-269). -/
def CMSCouponVector (s : Schedule)
    (paymentAdjustment : BusinessDayConvention)
    (nominals : List ℚ) (index : Nat) (settlementDays : Int)
    (dayCounter : DayCounter)
    (gearings spreads caps floors meanReversions : List ℚ)
    (pricer : Nat) (vol : Nat) : Except String (List CashFlow) :=
  if nominals.isEmpty then
    Except.error ("no nominal given")
  else
    attachSwaptionVolatility
      (CMSRawLeg s paymentAdjustment nominals index settlementDays
        dayCounter gearings spreads caps floors meanReversions pricer) vol

/-- First-period coupon of CMSZeroCouponVector (lines 295-321); the
payment date is the adjusted final schedule date (line 293). -/
def cmsZeroFirstCoupon (s : Schedule)
    (paymentAdjustment : BusinessDayConvention)
    (nominals : List ℚ) (index : Nat) (fixingDays : Int)
    (dayCounter : DayCounter)
    (gearings spreads caps floors meanReversions : List ℚ)
    (pricer : Nat) : CashFlow :=
  let paymentDate := s.calendar.adjust (s.date (s.size - 1)) paymentAdjustment
  let startDate := s.date 0
  let endDate := s.date 1
  if s.isRegular 1 then
    mkCMSCoupon (get nominals 0 NullReal) paymentDate index
      startDate endDate fixingDays dayCounter pricer
      (get gearings 0 1) (get spreads 0 0)
      (get caps 0 NullReal) (get floors 0 NullReal)
      (get meanReversions 0 NullReal) startDate endDate false
  else
    let reference := s.calendar.adjust (endDate - s.tenor) paymentAdjustment
    mkCMSCoupon (get nominals 0 NullReal) paymentDate index
      startDate endDate fixingDays dayCounter pricer
      (get gearings 0 1) (get spreads 0 0)
      (get caps 0 NullReal) (get floors 0 NullReal)
      (get meanReversions 0 NullReal) reference endDate false

/-- Middle-period coupon of CMSZeroCouponVector at source loop index i
(lines 322-334); the payment date stays the adjusted final date. -/
def cmsZeroMiddleCoupon (s : Schedule)
    (paymentAdjustment : BusinessDayConvention)
    (nominals : List ℚ) (index : Nat) (fixingDays : Int)
    (dayCounter : DayCounter)
    (gearings spreads caps floors meanReversions : List ℚ)
    (pricer : Nat) (i : Nat) : CashFlow :=
  let paymentDate := s.calendar.adjust (s.date (s.size - 1)) paymentAdjustment
  let startDate := s.date (i - 1)
  let endDate := s.date i
  mkCMSCoupon (get nominals (i - 1) NullReal) paymentDate index
    startDate endDate fixingDays dayCounter pricer
    (get gearings (i - 1) 1) (get spreads (i - 1) 0)
    (get caps (i - 1) NullReal) (get floors (i - 1) NullReal)
    (get meanReversions (i - 1) NullReal) startDate endDate false

/-- Last-period block of CMSZeroCouponVector (lines 335-362). -/
def cmsZeroLastCoupons (s : Schedule)
    (paymentAdjustment : BusinessDayConvention)
    (nominals : List ℚ) (index : Nat) (fixingDays : Int)
    (dayCounter : DayCounter)
    (gearings spreads caps floors meanReversions : List ℚ)
    (pricer : Nat) : List CashFlow :=
  if s.size > 2 then
    let N := s.size
    let paymentDate := s.calendar.adjust (s.date (N - 1)) paymentAdjustment
    let startDate := s.date (N - 2)
    let endDate := s.date (N - 1)
    if s.isRegular (N - 1) then
      [mkCMSCoupon (get nominals (N - 2) NullReal) paymentDate index
        startDate endDate fixingDays dayCounter pricer
        (get gearings (N - 2) 1) (get spreads (N - 2) 0)
        (get caps (N - 2) NullReal) (get floors (N - 2) NullReal)
        (get meanReversions (N - 2) NullReal) startDate endDate false]
    else
      let reference := s.calendar.adjust (startDate + s.tenor)
        paymentAdjustment
      [mkCMSCoupon (get nominals (N - 2) NullReal) paymentDate index
        startDate endDate fixingDays dayCounter pricer
        (get gearings (N - 2) 1) (get spreads (N - 2) 0)
        (get caps (N - 2) NullReal) (get floors (N - 2) NullReal)
        (get meanReversions (N - 2) NullReal) startDate reference false]
  else []

/-- The leg assembled by CMSZeroCouponVector before attachment. -/
def CMSZeroRawLeg (s : Schedule) (paymentAdjustment : BusinessDayConvention)
    (nominals : List ℚ) (index : Nat) (fixingDays : Int)
    (dayCounter : DayCounter)
    (gearings spreads caps floors meanReversions : List ℚ)
    (pricer : Nat) : List CashFlow :=
  buildLeg (cmsZeroFirstCoupon s paymentAdjustment nominals index fixingDays
              dayCounter gearings spreads caps floors meanReversions pricer)
           (cmsZeroMiddleCoupon s paymentAdjustment nominals index fixingDays
              dayCounter gearings spreads caps floors meanReversions pricer)
           (cmsZeroLastCoupons s paymentAdjustment nominals index fixingDays
              dayCounter gearings spreads caps floors meanReversions pricer)
           (s.size - 3)

/-- CMSZeroCouponVector (lines 271-374). -/
def CMSZeroCouponVector (s : Schedule)
    (paymentAdjustment : BusinessDayConvention)
    (nominals : List ℚ) (index : Nat) (fixingDays : Int)
    (dayCounter : DayCounter)
    (gearings spreads caps floors meanReversions : List ℚ)
    (pricer : Nat) (vol : Nat) : Except String (List CashFlow) :=
  if nominals.isEmpty then
    Except.error ("no nominal given")
  else
    attachSwaptionVolatility
      (CMSZeroRawLeg s paymentAdjustment nominals index fixingDays
        dayCounter gearings spreads caps floors meanReversions pricer) vol

/-- First-period coupon of CMSInArrearsCouponVector (lines 401-428); the
trailing constructor argument true sets the in-arrears flag. -/
def cmsInArrearsFirstCoupon (s : Schedule)
    (paymentAdjustment : BusinessDayConvention)
    (nominals : List ℚ) (index : Nat) (fixingDays : Int)
    (dayCounter : DayCounter)
    (gearings spreads caps floors meanReversions : List ℚ)
    (pricer : Nat) : CashFlow :=
  let startDate := s.date 0
  let endDate := s.date 1
  let paymentDate := s.calendar.adjust endDate paymentAdjustment
  if s.isRegular 1 then
    mkCMSCoupon (get nominals 0 NullReal) paymentDate index
      startDate endDate fixingDays dayCounter pricer
      (get gearings 0 1) (get spreads 0 0)
      (get caps 0 NullReal) (get floors 0 NullReal)
      (get meanReversions 0 NullReal) startDate endDate true
  else
    let reference := s.calendar.adjust (endDate - s.tenor) paymentAdjustment
    mkCMSCoupon (get nominals 0 NullReal) paymentDate index
      startDate endDate fixingDays dayCounter pricer
      (get gearings 0 1) (get spreads 0 0)
      (get caps 0 NullReal) (get floors 0 NullReal)
      (get meanReversions 0 NullReal) reference endDate true

/-- Middle-period coupon of CMSInArrearsCouponVector at source loop index
i (lines 429-442). -/
def cmsInArrearsMiddleCoupon (s : Schedule)
    (paymentAdjustment : BusinessDayConvention)
    (nominals : List ℚ) (index : Nat) (fixingDays : Int)
    (dayCounter : DayCounter)
    (gearings spreads caps floors meanReversions : List ℚ)
    (pricer : Nat) (i : Nat) : CashFlow :=
  let startDate := s.date (i - 1)
  let endDate := s.date i
  let paymentDate := s.calendar.adjust endDate paymentAdjustment
  mkCMSCoupon (get nominals (i - 1) NullReal) paymentDate index
    startDate endDate fixingDays dayCounter pricer
    (get gearings (i - 1) 1) (get spreads (i - 1) 0)
    (get caps (i - 1) NullReal) (get floors (i - 1) NullReal)
    (get meanReversions (i - 1) NullReal) startDate endDate true

/-- Last-period block of CMSInArrearsCouponVector (lines 443-471). -/
def cmsInArrearsLastCoupons (s : Schedule)
    (paymentAdjustment : BusinessDayConvention)
    (nominals : List ℚ) (index : Nat) (fixingDays : Int)
    (dayCounter : DayCounter)
    (gearings spreads caps floors meanReversions : List ℚ)
    (pricer : Nat) : List CashFlow :=
  if s.size > 2 then
    let N := s.size
    let startDate := s.date (N - 2)
    let endDate := s.date (N - 1)
    let paymentDate := s.calendar.adjust endDate paymentAdjustment
    if s.isRegular (N - 1) then
      [mkCMSCoupon (get nominals (N - 2) NullReal) paymentDate index
        startDate endDate fixingDays dayCounter pricer
        (get gearings (N - 2) 1) (get spreads (N - 2) 0)
        (get caps (N - 2) NullReal) (get floors (N - 2) NullReal)
        (get meanReversions (N - 2) NullReal) startDate endDate true]
    else
      let reference := s.calendar.adjust (startDate + s.tenor)
        paymentAdjustment
      [mkCMSCoupon (get nominals (N - 2) NullReal) paymentDate index
        startDate endDate fixingDays dayCounter pricer
        (get gearings (N - 2) 1) (get spreads (N - 2) 0)
        (get caps (N - 2) NullReal) (get floors (N - 2) NullReal)
        (get meanReversions (N - 2) NullReal) startDate reference true]
  else []

/-- The leg assembled by CMSInArrearsCouponVector before attachment. -/
def CMSInArrearsRawLeg (s : Schedule)
    (paymentAdjustment : BusinessDayConvention)
    (nominals : List ℚ) (index : Nat) (fixingDays : Int)
    (dayCounter : DayCounter)
    (gearings spreads caps floors meanReversions : List ℚ)
    (pricer : Nat) : List CashFlow :=
  buildLeg (cmsInArrearsFirstCoupon s paymentAdjustment nominals index
              fixingDays dayCounter gearings spreads caps floors
              meanReversions pricer)
           (cmsInArrearsMiddleCoupon s paymentAdjustment nominals index
              fixingDays dayCounter gearings spreads caps floors
              meanReversions pricer)
           (cmsInArrearsLastCoupons s paymentAdjustment nominals index
              fixingDays dayCounter gearings spreads caps floors
              meanReversions pricer)
           (s.size - 3)

/-- CMSInArrearsCouponVector (lines 378-483). -/
def CMSInArrearsCouponVector (s : Schedule)
    (paymentAdjustment : BusinessDayConvention)
    (nominals : List ℚ) (index : Nat) (fixingDays : Int)
    (dayCounter : DayCounter)
    (gearings spreads caps floors meanReversions : List ℚ)
    (pricer : Nat) (vol : Nat) : Except String (List CashFlow) :=
  if nominals.isEmpty then
    Except.error ("no nominal given")
  else
    attachSwaptionVolatility
      (CMSInArrearsRawLeg s paymentAdjustment nominals index fixingDays
        dayCounter gearings spreads caps floors meanReversions pricer) vol

/-- The effect of the attachment loop on one element. -/
def withVol (vol : Nat) : CashFlow → CashFlow
  | CashFlow.cms c => CashFlow.cms { c with swaptionVol := some vol }
  | cf => cf

/-- Identity calendar: adjustment returns the date unchanged. -/
def idCal : Calendar := ⟨fun d _ => d⟩

/-- A calendar whose adjustment result depends on the convention tag; it
makes the choice of business-day convention observable. -/
def shiftCal : Calendar := ⟨fun d c => d + (c : Int)⟩

/-- A concrete schedule with three dates, all periods regular. -/
def sched3 : Schedule :=
  { dates := [0, 100, 200], regularFlags := fun _ => true, tenor := 100,
    calendar := idCal, businessDayConvention := 0 }

/-- A concrete two-date schedule whose single period is an irregular stub,
over the convention-sensitive calendar. -/
def sched2stub : Schedule :=
  { dates := [0, 70], regularFlags := fun _ => false, tenor := 100,
    calendar := shiftCal, businessDayConvention := 0 }

/-- A concrete four-date schedule with irregular first and last periods. -/
def sched4stub : Schedule :=
  { dates := [0, 70, 170, 240], regularFlags := fun i => decide (i = 2),
    tenor := 100, calendar := idCal, businessDayConvention := 0 }

def CashFlow.fixedRate : CashFlow → ℚ
  | .fixed c => c.rate
  | .cms _ => 0

def CashFlow.gearing : CashFlow → ℚ
  | .cms c => c.gearing
  | .fixed _ => 0

def CashFlow.spread : CashFlow → ℚ
  | .cms c => c.spread
  | .fixed _ => 0

def CashFlow.cap : CashFlow → ℚ
  | .cms c => c.cap
  | .fixed _ => 0

def CashFlow.floor : CashFlow → ℚ
  | .cms c => c.floor
  | .fixed _ => 0

def CashFlow.meanReversion : CashFlow → ℚ
  | .cms c => c.meanReversion
  | .fixed _ => 0

/-- The stub handling of design section 4.2 for one leg over schedule s,
with stub reference dates adjusted by convention conv: an irregular first
period keeps its accrual end as reference end and gets reference start
adjust(accrualEnd - tenor); an irregular last period keeps its accrual
start and gets reference end adjust(accrualStart + tenor); a regular
first or last period, and every middle period, has reference dates equal
to its accrual dates. -/
def StubSpec (s : Schedule) (conv : BusinessDayConvention)
    (leg : List CashFlow) : Prop :=
  (s.isRegular 1 = false →
    (leg.getD 0 dummyCashFlow).refPeriodEnd
      = (leg.getD 0 dummyCashFlow).accrualEnd ∧
    (leg.getD 0 dummyCashFlow).refPeriodStart
      = s.calendar.adjust (s.date 1 - s.tenor) conv) ∧
  (s.isRegular 1 = true →
    (leg.getD 0 dummyCashFlow).refPeriodStart
      = (leg.getD 0 dummyCashFlow).accrualStart ∧
    (leg.getD 0 dummyCashFlow).refPeriodEnd
      = (leg.getD 0 dummyCashFlow).accrualEnd) ∧
  (2 < s.size → s.isRegular (s.size - 1) = false →
    (leg.getD (s.size - 2) dummyCashFlow).refPeriodStart
      = (leg.getD (s.size - 2) dummyCashFlow).accrualStart ∧
    (leg.getD (s.size - 2) dummyCashFlow).refPeriodEnd
      = s.calendar.adjust
          ((leg.getD (s.size - 2) dummyCashFlow).accrualStart + s.tenor)
          conv) ∧
  (2 < s.size → s.isRegular (s.size - 1) = true →
    (leg.getD (s.size - 2) dummyCashFlow).refPeriodStart
      = (leg.getD (s.size - 2) dummyCashFlow).accrualStart ∧
    (leg.getD (s.size - 2) dummyCashFlow).refPeriodEnd
      = (leg.getD (s.size - 2) dummyCashFlow).accrualEnd) ∧
  (∀ j, 1 ≤ j → j ≤ s.size - 3 →
    (leg.getD j dummyCashFlow).refPeriodStart
      = (leg.getD j dummyCashFlow).accrualStart ∧
    (leg.getD j dummyCashFlow).refPeriodEnd
      = (leg.getD j dummyCashFlow).accrualEnd)

variable {s : Schedule} {paymentAdjustment : BusinessDayConvention}
  {nominals couponRates gearings spreads caps floors meanReversions : List ℚ}
  {dayCount firstPeriodDayCount dayCounter : DayCounter}
  {index pricer vol : Nat} {settlementDays fixingDays : Int}
  {leg out : List CashFlow}

/-- Claim C2: the broadcaster is a total function returning the default on
an empty array, the indexed element when the index is in range, and the
last element otherwise; it raises no error for any input. -/
theorem C2_broadcaster_total (v : List ℚ) (i : Nat) (d : ℚ) :
    (v = [] → get v i d = d) ∧
    (∀ h : i < v.length, get v i d = v.get ⟨i, h⟩) ∧
    (∀ h : v ≠ [], v.length ≤ i → get v i d = v.getLast h) := by
  refine ⟨fun hv => by simp [get, hv], fun h => ?_, fun h hlen => ?_⟩
  · have hne : v ≠ [] := by
      intro hv
      subst hv
      simp at h
    simp [get, h, List.isEmpty_iff, hne, List.getD_eq_getElem v d h]
  · have hnl : ¬ i < v.length := by omega
    simp [get, List.isEmpty_iff, h, hnl, List.getLastD_eq_getLast?,
      List.getLast?_eq_getLast v h]

/-- Witness for C2 at concrete inputs, covering all three branches. -/
theorem C2_broadcaster_total_witness :
    get ([] : List ℚ) 4 7 = 7 ∧ get [3, 5] 1 7 = 5 ∧ get [3, 5] 9 7 = 5 := by
  refine ⟨(C2_broadcaster_total [] 4 7).1 rfl, ?_, ?_⟩
  · have h := (C2_broadcaster_total [3, 5] 1 7).2.1 (by decide)
    simpa using h
  · have h := (C2_broadcaster_total [3, 5] 9 7).2.2 (by decide) (by decide)
    simpa using h

theorem length_buildLeg (f : CashFlow) (m : Nat → CashFlow)
    (l : List CashFlow) (n : Nat) :
    (buildLeg f m l n).length = n + 1 + l.length := by
  simp [buildLeg]
  omega

theorem getD_buildLeg_zero (f : CashFlow) (m : Nat → CashFlow)
    (l : List CashFlow) (n : Nat) (d : CashFlow) :
    (buildLeg f m l n).getD 0 d = f := rfl

theorem getD_buildLeg_middle (f : CashFlow) (m : Nat → CashFlow)
    (l : List CashFlow) (n : Nat) (d : CashFlow) {j : Nat}
    (h1 : 1 ≤ j) (h2 : j ≤ n) :
    (buildLeg f m l n).getD j d = m (j + 1) := by
  obtain ⟨k, rfl⟩ : ∃ k, j = k + 1 := ⟨j - 1, by omega⟩
  have hk : k < n := by omega
  simp only [buildLeg, List.getD_cons_succ]
  rw [List.getD_append _ _ _ _ (by simpa using hk)]
  rw [List.getD_eq_getElem _ _ (by simpa using hk)]
  simp only [List.getElem_map, List.getElem_range']
  congr 1
  omega

theorem getD_buildLeg_last (f : CashFlow) (m : Nat → CashFlow)
    (l : List CashFlow) (n : Nat) (d : CashFlow) :
    (buildLeg f m l n).getD (n + 1) d = l.getD 0 d := by
  simp only [buildLeg, List.getD_cons_succ]
  rw [List.getD_append_right _ _ _ _ (by simp)]
  simp

theorem mem_buildLeg {cf f m l n} (h : cf ∈ buildLeg f m l n) :
    cf = f ∨ (∃ i, i < n ∧ cf = m (2 + i)) ∨ cf ∈ l := by
  simp only [buildLeg, List.mem_cons, List.mem_append, List.mem_map,
    List.mem_range'] at h
  rcases h with rfl | ⟨⟨i, ⟨k, hk, rfl⟩, rfl⟩ | hl⟩
  · exact Or.inl rfl
  · refine Or.inr (Or.inl ⟨k, hk, ?_⟩)
    norm_num
  · exact Or.inr (Or.inr hl)

/-- If every element of the leg is a CMS coupon, the attachment loop never
hits its cast-failure branch and returns the leg with the shared handle
attached to every element. -/
theorem attachSwaptionVolatility_ok_of_cms (vol : Nat) :
    ∀ leg : List CashFlow, (∀ cf ∈ leg, ∃ c, cf = CashFlow.cms c) →
      attachSwaptionVolatility leg vol = Except.ok (leg.map (withVol vol))
  | [], _ => rfl
  | cf :: rest, h => by
    obtain ⟨c, rfl⟩ := h cf (by simp)
    have ih := attachSwaptionVolatility_ok_of_cms vol rest
      (fun x hx => h x (by simp [hx]))
    simp [attachSwaptionVolatility, ih, withVol]

theorem withVol_paymentDate (vol : Nat) (cf : CashFlow) :
    (withVol vol cf).paymentDate = cf.paymentDate := by
  cases cf <;> rfl

theorem withVol_accrualStart (vol : Nat) (cf : CashFlow) :
    (withVol vol cf).accrualStart = cf.accrualStart := by
  cases cf <;> rfl

theorem withVol_accrualEnd (vol : Nat) (cf : CashFlow) :
    (withVol vol cf).accrualEnd = cf.accrualEnd := by
  cases cf <;> rfl

theorem withVol_refPeriodStart (vol : Nat) (cf : CashFlow) :
    (withVol vol cf).refPeriodStart = cf.refPeriodStart := by
  cases cf <;> rfl

theorem withVol_refPeriodEnd (vol : Nat) (cf : CashFlow) :
    (withVol vol cf).refPeriodEnd = cf.refPeriodEnd := by
  cases cf <;> rfl

theorem getD_map_withVol (vol : Nat) :
    ∀ (l : List CashFlow) (j : Nat),
      (l.map (withVol vol)).getD j dummyCashFlow
        = withVol vol (l.getD j dummyCashFlow)
  | [], j => by cases j <;> rfl
  | cf :: rest, 0 => rfl
  | cf :: rest, j + 1 => by
    simpa using getD_map_withVol vol rest j

theorem FixedRateCouponVector_ok_inv
    (h : FixedRateCouponVector s paymentAdjustment nominals couponRates
      dayCount firstPeriodDayCount = Except.ok leg) :
    couponRates ≠ [] ∧ nominals ≠ [] ∧
      leg = FixedRawLeg s paymentAdjustment nominals couponRates
        dayCount firstPeriodDayCount := by
  unfold FixedRateCouponVector at h
  split_ifs at h with h1 h2 h3
  exact ⟨by simpa [List.isEmpty_iff] using h1,
    by simpa [List.isEmpty_iff] using h2, (Except.ok.inj h).symm⟩

theorem CMSRawLeg_all_cms (s : Schedule)
    (paymentAdjustment : BusinessDayConvention)
    (nominals : List ℚ) (index : Nat) (settlementDays : Int)
    (dayCounter : DayCounter)
    (gearings spreads caps floors meanReversions : List ℚ) (pricer : Nat) :
    ∀ cf ∈ CMSRawLeg s paymentAdjustment nominals index settlementDays
        dayCounter gearings spreads caps floors meanReversions pricer,
      ∃ c, cf = CashFlow.cms c := by
  intro cf hcf
  rcases mem_buildLeg hcf with rfl | ⟨⟨i, hi, rfl⟩ | hl⟩
  · simp only [cmsFirstCoupon, mkCMSCoupon]
    split <;> exact ⟨_, rfl⟩
  · exact ⟨_, rfl⟩
  · simp only [cmsLastCoupons, mkCMSCoupon] at hl
    split at hl
    · split at hl <;> (rw [List.mem_singleton] at hl; exact ⟨_, hl⟩)
    · simp at hl

theorem CMSZeroRawLeg_all_cms (s : Schedule)
    (paymentAdjustment : BusinessDayConvention)
    (nominals : List ℚ) (index : Nat) (fixingDays : Int)
    (dayCounter : DayCounter)
    (gearings spreads caps floors meanReversions : List ℚ) (pricer : Nat) :
    ∀ cf ∈ CMSZeroRawLeg s paymentAdjustment nominals index fixingDays
        dayCounter gearings spreads caps floors meanReversions pricer,
      ∃ c, cf = CashFlow.cms c := by
  intro cf hcf
  rcases mem_buildLeg hcf with rfl | ⟨⟨i, hi, rfl⟩ | hl⟩
  · simp only [cmsZeroFirstCoupon, mkCMSCoupon]
    split <;> exact ⟨_, rfl⟩
  · exact ⟨_, rfl⟩
  · simp only [cmsZeroLastCoupons, mkCMSCoupon] at hl
    split at hl
    · split at hl <;> (rw [List.mem_singleton] at hl; exact ⟨_, hl⟩)
    · simp at hl

theorem CMSInArrearsRawLeg_all_cms (s : Schedule)
    (paymentAdjustment : BusinessDayConvention)
    (nominals : List ℚ) (index : Nat) (fixingDays : Int)
    (dayCounter : DayCounter)
    (gearings spreads caps floors meanReversions : List ℚ) (pricer : Nat) :
    ∀ cf ∈ CMSInArrearsRawLeg s paymentAdjustment nominals index fixingDays
        dayCounter gearings spreads caps floors meanReversions pricer,
      ∃ c, cf = CashFlow.cms c := by
  intro cf hcf
  rcases mem_buildLeg hcf with rfl | ⟨⟨i, hi, rfl⟩ | hl⟩
  · simp only [cmsInArrearsFirstCoupon, mkCMSCoupon]
    split <;> exact ⟨_, rfl⟩
  · exact ⟨_, rfl⟩
  · simp only [cmsInArrearsLastCoupons, mkCMSCoupon] at hl
    split at hl
    · split at hl <;> (rw [List.mem_singleton] at hl; exact ⟨_, hl⟩)
    · simp at hl

theorem CMSCouponVector_ok_inv
    (h : CMSCouponVector s paymentAdjustment nominals index settlementDays
      dayCounter gearings spreads caps floors meanReversions pricer vol
      = Except.ok out) :
    nominals ≠ [] ∧
      out = (CMSRawLeg s paymentAdjustment nominals index settlementDays
        dayCounter gearings spreads caps floors meanReversions pricer).map
          (withVol vol) := by
  unfold CMSCouponVector at h
  split_ifs at h with h1
  rw [attachSwaptionVolatility_ok_of_cms _ _
    (CMSRawLeg_all_cms s paymentAdjustment nominals index settlementDays
      dayCounter gearings spreads caps floors meanReversions pricer)] at h
  exact ⟨by simpa [List.isEmpty_iff] using h1, (Except.ok.inj h).symm⟩

theorem CMSZeroCouponVector_ok_inv
    (h : CMSZeroCouponVector s paymentAdjustment nominals index fixingDays
      dayCounter gearings spreads caps floors meanReversions pricer vol
      = Except.ok out) :
    nominals ≠ [] ∧
      out = (CMSZeroRawLeg s paymentAdjustment nominals index fixingDays
        dayCounter gearings spreads caps floors meanReversions pricer).map
          (withVol vol) := by
  unfold CMSZeroCouponVector at h
  split_ifs at h with h1
  rw [attachSwaptionVolatility_ok_of_cms _ _
    (CMSZeroRawLeg_all_cms s paymentAdjustment nominals index fixingDays
      dayCounter gearings spreads caps floors meanReversions pricer)] at h
  exact ⟨by simpa [List.isEmpty_iff] using h1, (Except.ok.inj h).symm⟩

theorem CMSInArrearsCouponVector_ok_inv
    (h : CMSInArrearsCouponVector s paymentAdjustment nominals index
      fixingDays dayCounter gearings spreads caps floors meanReversions
      pricer vol = Except.ok out) :
    nominals ≠ [] ∧
      out = (CMSInArrearsRawLeg s paymentAdjustment nominals index fixingDays
        dayCounter gearings spreads caps floors meanReversions pricer).map
          (withVol vol) := by
  unfold CMSInArrearsCouponVector at h
  split_ifs at h with h1
  rw [attachSwaptionVolatility_ok_of_cms _ _
    (CMSInArrearsRawLeg_all_cms s paymentAdjustment nominals index fixingDays
      dayCounter gearings spreads caps floors meanReversions pricer)] at h
  exact ⟨by simpa [List.isEmpty_iff] using h1, (Except.ok.inj h).symm⟩

theorem length_fixedLastCoupons :
    (fixedLastCoupons s paymentAdjustment nominals couponRates
      dayCount).length = if 2 < s.size then 1 else 0 := by
  simp only [fixedLastCoupons]
  split
  · split <;> rfl
  · rfl

theorem length_cmsLastCoupons :
    (cmsLastCoupons s paymentAdjustment nominals index settlementDays
      dayCounter gearings spreads caps floors meanReversions pricer).length
      = if 2 < s.size then 1 else 0 := by
  simp only [cmsLastCoupons]
  split
  · split <;> rfl
  · rfl

theorem length_cmsZeroLastCoupons :
    (cmsZeroLastCoupons s paymentAdjustment nominals index fixingDays
      dayCounter gearings spreads caps floors meanReversions pricer).length
      = if 2 < s.size then 1 else 0 := by
  simp only [cmsZeroLastCoupons]
  split
  · split <;> rfl
  · rfl

theorem length_cmsInArrearsLastCoupons :
    (cmsInArrearsLastCoupons s paymentAdjustment nominals index fixingDays
      dayCounter gearings spreads caps floors meanReversions pricer).length
      = if 2 < s.size then 1 else 0 := by
  simp only [cmsInArrearsLastCoupons]
  split
  · split <;> rfl
  · rfl

/-- Claim C1: for every schedule of N dates with N >= 2, each builder that
passes its preconditions returns a leg of exactly N-1 coupons; when N = 2
the leg is the single coupon produced by the first-period branch and the
last-period block (guarded by N > 2) contributes nothing. -/
theorem C1_leg_count {legF legC legZ legA : List CashFlow}
    (hN : 2 ≤ s.size)
    (hF : FixedRateCouponVector s paymentAdjustment nominals couponRates
      dayCount firstPeriodDayCount = Except.ok legF)
    (hC : CMSCouponVector s paymentAdjustment nominals index settlementDays
      dayCounter gearings spreads caps floors meanReversions pricer vol
      = Except.ok legC)
    (hZ : CMSZeroCouponVector s paymentAdjustment nominals index fixingDays
      dayCounter gearings spreads caps floors meanReversions pricer vol
      = Except.ok legZ)
    (hA : CMSInArrearsCouponVector s paymentAdjustment nominals index
      fixingDays dayCounter gearings spreads caps floors meanReversions
      pricer vol = Except.ok legA) :
    legF.length = s.size - 1 ∧ legC.length = s.size - 1 ∧
    legZ.length = s.size - 1 ∧ legA.length = s.size - 1 ∧
    (s.size = 2 →
      legF = [fixedFirstCoupon s paymentAdjustment nominals couponRates
        dayCount firstPeriodDayCount] ∧
      legC = [withVol vol (cmsFirstCoupon s paymentAdjustment nominals index
        settlementDays dayCounter gearings spreads caps floors
        meanReversions pricer)] ∧
      legZ = [withVol vol (cmsZeroFirstCoupon s paymentAdjustment nominals
        index fixingDays dayCounter gearings spreads caps floors
        meanReversions pricer)] ∧
      legA = [withVol vol (cmsInArrearsFirstCoupon s paymentAdjustment
        nominals index fixingDays dayCounter gearings spreads caps floors
        meanReversions pricer)]) := by
  obtain ⟨hcr, hn, rfl⟩ := FixedRateCouponVector_ok_inv hF
  obtain ⟨hnC, rfl⟩ := CMSCouponVector_ok_inv hC
  obtain ⟨hnZ, rfl⟩ := CMSZeroCouponVector_ok_inv hZ
  obtain ⟨hnA, rfl⟩ := CMSInArrearsCouponVector_ok_inv hA
  refine ⟨?_, ?_, ?_, ?_, ?_⟩
  · rw [FixedRawLeg, length_buildLeg, length_fixedLastCoupons]
    split_ifs <;> omega
  · rw [List.length_map, CMSRawLeg, length_buildLeg, length_cmsLastCoupons]
    split_ifs <;> omega
  · rw [List.length_map, CMSZeroRawLeg, length_buildLeg,
      length_cmsZeroLastCoupons]
    split_ifs <;> omega
  · rw [List.length_map, CMSInArrearsRawLeg, length_buildLeg,
      length_cmsInArrearsLastCoupons]
    split_ifs <;> omega
  · intro h2
    have h3 : ¬ 2 < s.size := by omega
    have hn3 : s.size - 3 = 0 := by omega
    refine ⟨?_, ?_, ?_, ?_⟩
    · simp [FixedRawLeg, buildLeg, hn3, fixedLastCoupons, h3]
    · simp [CMSRawLeg, buildLeg, hn3, cmsLastCoupons, h3]
    · simp [CMSZeroRawLeg, buildLeg, hn3, cmsZeroLastCoupons, h3]
    · simp [CMSInArrearsRawLeg, buildLeg, hn3, cmsInArrearsLastCoupons, h3]

/-- Witness for C1: a three-date schedule gives two coupons per builder. -/
theorem C1_leg_count_witness :
    2 ≤ sched3.size ∧
    FixedRateCouponVector sched3 0 [100] [3] (some 1) none
      = Except.ok (FixedRawLeg sched3 0 [100] [3] (some 1) none) ∧
    CMSCouponVector sched3 0 [100] 7 2 (some 1) [] [] [] [] [] 5 9
      = Except.ok ((CMSRawLeg sched3 0 [100] 7 2 (some 1) [] [] [] [] [] 5).map
          (withVol 9)) ∧
    CMSZeroCouponVector sched3 0 [100] 7 2 (some 1) [] [] [] [] [] 5 9
      = Except.ok ((CMSZeroRawLeg sched3 0 [100] 7 2 (some 1) [] [] [] [] []
          5).map (withVol 9)) ∧
    CMSInArrearsCouponVector sched3 0 [100] 7 2 (some 1) [] [] [] [] [] 5 9
      = Except.ok ((CMSInArrearsRawLeg sched3 0 [100] 7 2 (some 1) [] [] [] []
          [] 5).map (withVol 9)) ∧
    (FixedRawLeg sched3 0 [100] [3] (some 1) none).length = sched3.size - 1 := by
  have hF : FixedRateCouponVector sched3 0 [100] [3] (some 1) none
      = Except.ok (FixedRawLeg sched3 0 [100] [3] (some 1) none) := rfl
  have hC : CMSCouponVector sched3 0 [100] 7 2 (some 1) [] [] [] [] [] 5 9
      = Except.ok ((CMSRawLeg sched3 0 [100] 7 2 (some 1) [] [] [] [] []
          5).map (withVol 9)) := rfl
  have hZ : CMSZeroCouponVector sched3 0 [100] 7 2 (some 1) [] [] [] [] [] 5 9
      = Except.ok ((CMSZeroRawLeg sched3 0 [100] 7 2 (some 1) [] [] [] [] []
          5).map (withVol 9)) := rfl
  have hA : CMSInArrearsCouponVector sched3 0 [100] 7 2 (some 1) [] [] [] []
        [] 5 9
      = Except.ok ((CMSInArrearsRawLeg sched3 0 [100] 7 2 (some 1) [] [] [] []
          [] 5).map (withVol 9)) := rfl
  exact ⟨by decide, hF, hC, hZ, hA, (C1_leg_count (by decide) hF hC hZ hA).1⟩

/-- Claim C7: an empty nominals array (and, for the fixed-rate builder,
an empty coupon-rates array) makes the call fail with the corresponding
configuration error; the error is returned in place of any leg, so no
partial leg is observable. -/
theorem C7_empty_arrays_fail (s : Schedule)
    (paymentAdjustment : BusinessDayConvention)
    (nominals couponRates : List ℚ)
    (dayCount firstPeriodDayCount dayCounter : DayCounter)
    (index : Nat) (settlementDays fixingDays : Int)
    (gearings spreads caps floors meanReversions : List ℚ)
    (pricer vol : Nat) :
    (couponRates = [] →
      FixedRateCouponVector s paymentAdjustment nominals couponRates
        dayCount firstPeriodDayCount
        = Except.error ("coupon rates not specified")) ∧
    (couponRates ≠ [] → nominals = [] →
      FixedRateCouponVector s paymentAdjustment nominals couponRates
        dayCount firstPeriodDayCount
        = Except.error ("nominals not specified")) ∧
    (nominals = [] →
      CMSCouponVector s paymentAdjustment nominals index settlementDays
        dayCounter gearings spreads caps floors meanReversions pricer vol
        = Except.error ("no nominal given")) ∧
    (nominals = [] →
      CMSZeroCouponVector s paymentAdjustment nominals index fixingDays
        dayCounter gearings spreads caps floors meanReversions pricer vol
        = Except.error ("no nominal given")) ∧
    (nominals = [] →
      CMSInArrearsCouponVector s paymentAdjustment nominals index fixingDays
        dayCounter gearings spreads caps floors meanReversions pricer vol
        = Except.error ("no nominal given")) := by
  refine ⟨fun hcr => ?_, fun hcr hn => ?_, fun hn => ?_, fun hn => ?_,
    fun hn => ?_⟩
  · simp [FixedRateCouponVector, hcr]
  · simp [FixedRateCouponVector, List.isEmpty_iff, hcr, hn]
  · simp [CMSCouponVector, hn]
  · simp [CMSZeroCouponVector, hn]
  · simp [CMSInArrearsCouponVector, hn]

/-- Witness for C7 at concrete inputs, one instance per conjunct. -/
theorem C7_empty_arrays_fail_witness :
    FixedRateCouponVector sched3 0 [100] [] (some 1) none
      = Except.error ("coupon rates not specified") ∧
    FixedRateCouponVector sched3 0 [] [3] (some 1) none
      = Except.error ("nominals not specified") ∧
    CMSCouponVector sched3 0 [] 7 2 (some 1) [] [] [] [] [] 5 9
      = Except.error ("no nominal given") ∧
    CMSZeroCouponVector sched3 0 [] 7 2 (some 1) [] [] [] [] [] 5 9
      = Except.error ("no nominal given") ∧
    CMSInArrearsCouponVector sched3 0 [] 7 2 (some 1) [] [] [] [] [] 5 9
      = Except.error ("no nominal given") := by
  have hA := C7_empty_arrays_fail sched3 0 [100] [] (some 1) none (some 1)
    7 2 2 [] [] [] [] [] 5 9
  have hB := C7_empty_arrays_fail sched3 0 [] [3] (some 1) none (some 1)
    7 2 2 [] [] [] [] [] 5 9
  exact ⟨hA.1 rfl, hB.2.1 (by decide) rfl, hB.2.2.1 rfl, hB.2.2.2.1 rfl,
    hB.2.2.2.2 rfl⟩

/-- Counterexample to claim C6 as stated: with a regular first period and
a NON-empty explicit first-period day count that equals the leg day
count, FixedRateCouponVector succeeds instead of failing. -/
theorem C6_counterexample_equal_override_accepted :
    sched3.isRegular 1 = true ∧ (some 1 : DayCounter) ≠ none ∧
    FixedRateCouponVector sched3 0 [100] [3] (some 1) (some 1)
      = Except.ok (FixedRawLeg sched3 0 [100] [3] (some 1) (some 1)) :=
  ⟨rfl, by decide, rfl⟩

/-- Claim C6 (amended): with a regular first period, a non-empty explicit
first-period day count DIFFERENT from the leg day count makes the call
fail with the configuration error. -/
theorem C6_regular_override_error
    (hcr : couponRates ≠ []) (hn : nominals ≠ [])
    (hr : s.isRegular 1 = true)
    (hne : firstPeriodDayCount ≠ none)
    (hdiff : firstPeriodDayCount ≠ dayCount) :
    FixedRateCouponVector s paymentAdjustment nominals couponRates dayCount
      firstPeriodDayCount
      = Except.error
          ("regular first coupon does not allow a first-period day count") := by
  simp [FixedRateCouponVector, List.isEmpty_iff, hcr, hn, hr,
    Option.isNone_iff_eq_none, hne, hdiff]

/-- Witness for the amended C6 at concrete inputs. -/
theorem C6_regular_override_error_witness :
    ([3] : List ℚ) ≠ [] ∧ ([100] : List ℚ) ≠ [] ∧
    sched3.isRegular 1 = true ∧ (some 2 : DayCounter) ≠ none ∧
    (some 2 : DayCounter) ≠ some 1 ∧
    FixedRateCouponVector sched3 0 [100] [3] (some 1) (some 2)
      = Except.error
          ("regular first coupon does not allow a first-period day count") :=
  ⟨by decide, by decide, rfl, by decide, by decide,
    C6_regular_override_error (by decide) (by decide) rfl (by decide)
      (by decide)⟩

theorem FixedRawLeg_paymentDate :
    ∀ cf ∈ FixedRawLeg s paymentAdjustment nominals couponRates dayCount
        firstPeriodDayCount,
      cf.paymentDate = s.calendar.adjust cf.accrualEnd paymentAdjustment := by
  intro cf hcf
  rcases mem_buildLeg hcf with rfl | ⟨⟨i, hi, rfl⟩ | hl⟩
  · simp only [fixedFirstCoupon]
    split <;> rfl
  · rfl
  · simp only [fixedLastCoupons] at hl
    split at hl
    · split at hl <;> (rw [List.mem_singleton] at hl; subst hl; rfl)
    · simp at hl

theorem CMSRawLeg_paymentDate :
    ∀ cf ∈ CMSRawLeg s paymentAdjustment nominals index settlementDays
        dayCounter gearings spreads caps floors meanReversions pricer,
      cf.paymentDate = s.calendar.adjust cf.accrualEnd paymentAdjustment := by
  intro cf hcf
  rcases mem_buildLeg hcf with rfl | ⟨⟨i, hi, rfl⟩ | hl⟩
  · simp only [cmsFirstCoupon, mkCMSCoupon]
    split <;> rfl
  · rfl
  · simp only [cmsLastCoupons, mkCMSCoupon] at hl
    split at hl
    · split at hl <;> (rw [List.mem_singleton] at hl; subst hl; rfl)
    · simp at hl

theorem CMSZeroRawLeg_paymentDate :
    ∀ cf ∈ CMSZeroRawLeg s paymentAdjustment nominals index fixingDays
        dayCounter gearings spreads caps floors meanReversions pricer,
      cf.paymentDate
        = s.calendar.adjust (s.date (s.size - 1)) paymentAdjustment := by
  intro cf hcf
  rcases mem_buildLeg hcf with rfl | ⟨⟨i, hi, rfl⟩ | hl⟩
  · simp only [cmsZeroFirstCoupon, mkCMSCoupon]
    split <;> rfl
  · rfl
  · simp only [cmsZeroLastCoupons, mkCMSCoupon] at hl
    split at hl
    · split at hl <;> (rw [List.mem_singleton] at hl; subst hl; rfl)
    · simp at hl

theorem CMSInArrearsRawLeg_paymentDate :
    ∀ cf ∈ CMSInArrearsRawLeg s paymentAdjustment nominals index fixingDays
        dayCounter gearings spreads caps floors meanReversions pricer,
      cf.paymentDate = s.calendar.adjust cf.accrualEnd paymentAdjustment := by
  intro cf hcf
  rcases mem_buildLeg hcf with rfl | ⟨⟨i, hi, rfl⟩ | hl⟩
  · simp only [cmsInArrearsFirstCoupon, mkCMSCoupon]
    split <;> rfl
  · rfl
  · simp only [cmsInArrearsLastCoupons, mkCMSCoupon] at hl
    split at hl
    · split at hl <;> (rw [List.mem_singleton] at hl; subst hl; rfl)
    · simp at hl

theorem CMSRawLeg_arrears_flag :
    ∀ cf ∈ CMSRawLeg s paymentAdjustment nominals index settlementDays
        dayCounter gearings spreads caps floors meanReversions pricer,
      ∃ c, cf = CashFlow.cms c ∧ c.isInArrears = false := by
  intro cf hcf
  rcases mem_buildLeg hcf with rfl | ⟨⟨i, hi, rfl⟩ | hl⟩
  · simp only [cmsFirstCoupon, mkCMSCoupon]
    split <;> exact ⟨_, rfl, rfl⟩
  · exact ⟨_, rfl, rfl⟩
  · simp only [cmsLastCoupons, mkCMSCoupon] at hl
    split at hl
    · split at hl
      · rw [List.mem_singleton] at hl
        subst hl
        exact ⟨_, rfl, rfl⟩
      · rw [List.mem_singleton] at hl
        subst hl
        exact ⟨_, rfl, rfl⟩
    · simp at hl

theorem CMSInArrearsRawLeg_arrears_flag :
    ∀ cf ∈ CMSInArrearsRawLeg s paymentAdjustment nominals index fixingDays
        dayCounter gearings spreads caps floors meanReversions pricer,
      ∃ c, cf = CashFlow.cms c ∧ c.isInArrears = true := by
  intro cf hcf
  rcases mem_buildLeg hcf with rfl | ⟨⟨i, hi, rfl⟩ | hl⟩
  · simp only [cmsInArrearsFirstCoupon, mkCMSCoupon]
    split <;> exact ⟨_, rfl, rfl⟩
  · exact ⟨_, rfl, rfl⟩
  · simp only [cmsInArrearsLastCoupons, mkCMSCoupon] at hl
    split at hl
    · split at hl
      · rw [List.mem_singleton] at hl
        subst hl
        exact ⟨_, rfl, rfl⟩
      · rw [List.mem_singleton] at hl
        subst hl
        exact ⟨_, rfl, rfl⟩
    · simp at hl

/-- Claim C4: fixed-rate, CMS and CMS-in-arrears coupons are paid on the
calendar-adjusted accrual end of their own period, while every CMS zero
coupon is paid on the single adjusted final schedule date. -/
theorem C4_payment_dates {legF legC legZ legA : List CashFlow}
    (hF : FixedRateCouponVector s paymentAdjustment nominals couponRates
      dayCount firstPeriodDayCount = Except.ok legF)
    (hC : CMSCouponVector s paymentAdjustment nominals index settlementDays
      dayCounter gearings spreads caps floors meanReversions pricer vol
      = Except.ok legC)
    (hZ : CMSZeroCouponVector s paymentAdjustment nominals index fixingDays
      dayCounter gearings spreads caps floors meanReversions pricer vol
      = Except.ok legZ)
    (hA : CMSInArrearsCouponVector s paymentAdjustment nominals index
      fixingDays dayCounter gearings spreads caps floors meanReversions
      pricer vol = Except.ok legA) :
    (∀ cf ∈ legF,
      cf.paymentDate = s.calendar.adjust cf.accrualEnd paymentAdjustment) ∧
    (∀ cf ∈ legC,
      cf.paymentDate = s.calendar.adjust cf.accrualEnd paymentAdjustment) ∧
    (∀ cf ∈ legZ,
      cf.paymentDate
        = s.calendar.adjust (s.date (s.size - 1)) paymentAdjustment) ∧
    (∀ cf ∈ legA,
      cf.paymentDate = s.calendar.adjust cf.accrualEnd paymentAdjustment) := by
  obtain ⟨hcr, hn, rfl⟩ := FixedRateCouponVector_ok_inv hF
  obtain ⟨hnC, rfl⟩ := CMSCouponVector_ok_inv hC
  obtain ⟨hnZ, rfl⟩ := CMSZeroCouponVector_ok_inv hZ
  obtain ⟨hnA, rfl⟩ := CMSInArrearsCouponVector_ok_inv hA
  refine ⟨FixedRawLeg_paymentDate, ?_, ?_, ?_⟩
  · intro cf hcf
    rw [List.mem_map] at hcf
    obtain ⟨x, hx, rfl⟩ := hcf
    rw [withVol_paymentDate, withVol_accrualEnd]
    exact CMSRawLeg_paymentDate x hx
  · intro cf hcf
    rw [List.mem_map] at hcf
    obtain ⟨x, hx, rfl⟩ := hcf
    rw [withVol_paymentDate]
    exact CMSZeroRawLeg_paymentDate x hx
  · intro cf hcf
    rw [List.mem_map] at hcf
    obtain ⟨x, hx, rfl⟩ := hcf
    rw [withVol_paymentDate, withVol_accrualEnd]
    exact CMSInArrearsRawLeg_paymentDate x hx

/-- Witness for C4: concrete three-date legs, checked on their first
coupon. -/
theorem C4_payment_dates_witness :
    FixedRateCouponVector sched3 4 [100] [3] (some 1) none
      = Except.ok (FixedRawLeg sched3 4 [100] [3] (some 1) none) ∧
    CMSCouponVector sched3 4 [100] 7 2 (some 1) [] [] [] [] [] 5 9
      = Except.ok ((CMSRawLeg sched3 4 [100] 7 2 (some 1) [] [] [] [] []
          5).map (withVol 9)) ∧
    CMSZeroCouponVector sched3 4 [100] 7 2 (some 1) [] [] [] [] [] 5 9
      = Except.ok ((CMSZeroRawLeg sched3 4 [100] 7 2 (some 1) [] [] [] [] []
          5).map (withVol 9)) ∧
    CMSInArrearsCouponVector sched3 4 [100] 7 2 (some 1) [] [] [] [] [] 5 9
      = Except.ok ((CMSInArrearsRawLeg sched3 4 [100] 7 2 (some 1) [] [] []
          [] [] 5).map (withVol 9)) ∧
    ((FixedRawLeg sched3 4 [100] [3] (some 1) none).getD 0
        dummyCashFlow).paymentDate
      = sched3.calendar.adjust ((FixedRawLeg sched3 4 [100] [3] (some 1)
          none).getD 0 dummyCashFlow).accrualEnd 4 := by
  have hF : FixedRateCouponVector sched3 4 [100] [3] (some 1) none
      = Except.ok (FixedRawLeg sched3 4 [100] [3] (some 1) none) := rfl
  have hC : CMSCouponVector sched3 4 [100] 7 2 (some 1) [] [] [] [] [] 5 9
      = Except.ok ((CMSRawLeg sched3 4 [100] 7 2 (some 1) [] [] [] [] []
          5).map (withVol 9)) := rfl
  have hZ : CMSZeroCouponVector sched3 4 [100] 7 2 (some 1) [] [] [] [] [] 5 9
      = Except.ok ((CMSZeroRawLeg sched3 4 [100] 7 2 (some 1) [] [] [] [] []
          5).map (withVol 9)) := rfl
  have hA : CMSInArrearsCouponVector sched3 4 [100] 7 2 (some 1) [] [] [] []
        [] 5 9
      = Except.ok ((CMSInArrearsRawLeg sched3 4 [100] 7 2 (some 1) [] [] []
          [] [] 5).map (withVol 9)) := rfl
  exact ⟨hF, hC, hZ, hA,
    (C4_payment_dates hF hC hZ hA).1 _ (by decide)⟩

/-- Claim C8: every coupon built by CMSInArrearsCouponVector has the
in-arrears flag set, and every coupon built by CMSCouponVector has it
unset. -/
theorem C8_arrears_flags {legC legA : List CashFlow}
    (hC : CMSCouponVector s paymentAdjustment nominals index settlementDays
      dayCounter gearings spreads caps floors meanReversions pricer vol
      = Except.ok legC)
    (hA : CMSInArrearsCouponVector s paymentAdjustment nominals index
      fixingDays dayCounter gearings spreads caps floors meanReversions
      pricer vol = Except.ok legA) :
    (∀ cf ∈ legC, ∃ c, cf = CashFlow.cms c ∧ c.isInArrears = false) ∧
    (∀ cf ∈ legA, ∃ c, cf = CashFlow.cms c ∧ c.isInArrears = true) := by
  obtain ⟨hnC, rfl⟩ := CMSCouponVector_ok_inv hC
  obtain ⟨hnA, rfl⟩ := CMSInArrearsCouponVector_ok_inv hA
  constructor
  · intro cf hcf
    rw [List.mem_map] at hcf
    obtain ⟨x, hx, rfl⟩ := hcf
    obtain ⟨c, rfl, hflag⟩ := CMSRawLeg_arrears_flag x hx
    exact ⟨_, rfl, hflag⟩
  · intro cf hcf
    rw [List.mem_map] at hcf
    obtain ⟨x, hx, rfl⟩ := hcf
    obtain ⟨c, rfl, hflag⟩ := CMSInArrearsRawLeg_arrears_flag x hx
    exact ⟨_, rfl, hflag⟩

/-- Witness for C8 on concrete legs, checked on their first coupons. -/
theorem C8_arrears_flags_witness :
    CMSCouponVector sched3 0 [100] 7 2 (some 1) [] [] [] [] [] 5 9
      = Except.ok ((CMSRawLeg sched3 0 [100] 7 2 (some 1) [] [] [] [] []
          5).map (withVol 9)) ∧
    CMSInArrearsCouponVector sched3 0 [100] 7 2 (some 1) [] [] [] [] [] 5 9
      = Except.ok ((CMSInArrearsRawLeg sched3 0 [100] 7 2 (some 1) [] [] []
          [] [] 5).map (withVol 9)) ∧
    (∃ c, ((CMSRawLeg sched3 0 [100] 7 2 (some 1) [] [] [] [] [] 5).map
        (withVol 9)).getD 0 dummyCashFlow = CashFlow.cms c
      ∧ c.isInArrears = false) := by
  have hC : CMSCouponVector sched3 0 [100] 7 2 (some 1) [] [] [] [] [] 5 9
      = Except.ok ((CMSRawLeg sched3 0 [100] 7 2 (some 1) [] [] [] [] []
          5).map (withVol 9)) := rfl
  have hA : CMSInArrearsCouponVector sched3 0 [100] 7 2 (some 1) [] [] [] []
        [] 5 9
      = Except.ok ((CMSInArrearsRawLeg sched3 0 [100] 7 2 (some 1) [] [] []
          [] [] 5).map (withVol 9)) := rfl
  exact ⟨hC, hA, (C8_arrears_flags hC hA).1 _ (by decide)⟩

/-- Claim C9: each CMS builder assembles a homogeneous all-CMS leg, so the
cast-failure branch of the attachment loop is unreachable (the loop
returns the leg with the handle attached instead of failing), and on a
successful call every coupon of the returned leg carries the same shared
volatility handle. -/
theorem C9_homogeneous_legs {legC legZ legA : List CashFlow}
    (hC : CMSCouponVector s paymentAdjustment nominals index settlementDays
      dayCounter gearings spreads caps floors meanReversions pricer vol
      = Except.ok legC)
    (hZ : CMSZeroCouponVector s paymentAdjustment nominals index fixingDays
      dayCounter gearings spreads caps floors meanReversions pricer vol
      = Except.ok legZ)
    (hA : CMSInArrearsCouponVector s paymentAdjustment nominals index
      fixingDays dayCounter gearings spreads caps floors meanReversions
      pricer vol = Except.ok legA) :
    attachSwaptionVolatility (CMSRawLeg s paymentAdjustment nominals index
        settlementDays dayCounter gearings spreads caps floors
        meanReversions pricer) vol
      = Except.ok ((CMSRawLeg s paymentAdjustment nominals index
          settlementDays dayCounter gearings spreads caps floors
          meanReversions pricer).map (withVol vol)) ∧
    attachSwaptionVolatility (CMSZeroRawLeg s paymentAdjustment nominals
        index fixingDays dayCounter gearings spreads caps floors
        meanReversions pricer) vol
      = Except.ok ((CMSZeroRawLeg s paymentAdjustment nominals index
          fixingDays dayCounter gearings spreads caps floors meanReversions
          pricer).map (withVol vol)) ∧
    attachSwaptionVolatility (CMSInArrearsRawLeg s paymentAdjustment
        nominals index fixingDays dayCounter gearings spreads caps floors
        meanReversions pricer) vol
      = Except.ok ((CMSInArrearsRawLeg s paymentAdjustment nominals index
          fixingDays dayCounter gearings spreads caps floors meanReversions
          pricer).map (withVol vol)) ∧
    (∀ cf ∈ legC, ∃ c, cf = CashFlow.cms c ∧ c.swaptionVol = some vol) ∧
    (∀ cf ∈ legZ, ∃ c, cf = CashFlow.cms c ∧ c.swaptionVol = some vol) ∧
    (∀ cf ∈ legA, ∃ c, cf = CashFlow.cms c ∧ c.swaptionVol = some vol) := by
  obtain ⟨hnC, rfl⟩ := CMSCouponVector_ok_inv hC
  obtain ⟨hnZ, rfl⟩ := CMSZeroCouponVector_ok_inv hZ
  obtain ⟨hnA, rfl⟩ := CMSInArrearsCouponVector_ok_inv hA
  refine ⟨attachSwaptionVolatility_ok_of_cms _ _ (CMSRawLeg_all_cms s
      paymentAdjustment nominals index settlementDays dayCounter gearings
      spreads caps floors meanReversions pricer),
    attachSwaptionVolatility_ok_of_cms _ _ (CMSZeroRawLeg_all_cms s
      paymentAdjustment nominals index fixingDays dayCounter gearings
      spreads caps floors meanReversions pricer),
    attachSwaptionVolatility_ok_of_cms _ _ (CMSInArrearsRawLeg_all_cms s
      paymentAdjustment nominals index fixingDays dayCounter gearings
      spreads caps floors meanReversions pricer), ?_, ?_, ?_⟩
  · intro cf hcf
    rw [List.mem_map] at hcf
    obtain ⟨x, hx, rfl⟩ := hcf
    obtain ⟨c, rfl⟩ := CMSRawLeg_all_cms s paymentAdjustment nominals index
      settlementDays dayCounter gearings spreads caps floors meanReversions
      pricer x hx
    exact ⟨_, rfl, rfl⟩
  · intro cf hcf
    rw [List.mem_map] at hcf
    obtain ⟨x, hx, rfl⟩ := hcf
    obtain ⟨c, rfl⟩ := CMSZeroRawLeg_all_cms s paymentAdjustment nominals
      index fixingDays dayCounter gearings spreads caps floors
      meanReversions pricer x hx
    exact ⟨_, rfl, rfl⟩
  · intro cf hcf
    rw [List.mem_map] at hcf
    obtain ⟨x, hx, rfl⟩ := hcf
    obtain ⟨c, rfl⟩ := CMSInArrearsRawLeg_all_cms s paymentAdjustment
      nominals index fixingDays dayCounter gearings spreads caps floors
      meanReversions pricer x hx
    exact ⟨_, rfl, rfl⟩

/-- Witness for C9 on concrete legs. -/
theorem C9_homogeneous_legs_witness :
    CMSCouponVector sched3 0 [100] 7 2 (some 1) [] [] [] [] [] 5 9
      = Except.ok ((CMSRawLeg sched3 0 [100] 7 2 (some 1) [] [] [] [] []
          5).map (withVol 9)) ∧
    CMSZeroCouponVector sched3 0 [100] 7 2 (some 1) [] [] [] [] [] 5 9
      = Except.ok ((CMSZeroRawLeg sched3 0 [100] 7 2 (some 1) [] [] [] [] []
          5).map (withVol 9)) ∧
    CMSInArrearsCouponVector sched3 0 [100] 7 2 (some 1) [] [] [] [] [] 5 9
      = Except.ok ((CMSInArrearsRawLeg sched3 0 [100] 7 2 (some 1) [] [] []
          [] [] 5).map (withVol 9)) ∧
    attachSwaptionVolatility (CMSRawLeg sched3 0 [100] 7 2 (some 1) [] [] []
        [] [] 5) 9
      = Except.ok ((CMSRawLeg sched3 0 [100] 7 2 (some 1) [] [] [] [] []
          5).map (withVol 9)) := by
  have hC : CMSCouponVector sched3 0 [100] 7 2 (some 1) [] [] [] [] [] 5 9
      = Except.ok ((CMSRawLeg sched3 0 [100] 7 2 (some 1) [] [] [] [] []
          5).map (withVol 9)) := rfl
  have hZ : CMSZeroCouponVector sched3 0 [100] 7 2 (some 1) [] [] [] [] [] 5 9
      = Except.ok ((CMSZeroRawLeg sched3 0 [100] 7 2 (some 1) [] [] [] [] []
          5).map (withVol 9)) := rfl
  have hA : CMSInArrearsCouponVector sched3 0 [100] 7 2 (some 1) [] [] [] []
        [] 5 9
      = Except.ok ((CMSInArrearsRawLeg sched3 0 [100] 7 2 (some 1) [] [] []
          [] [] 5).map (withVol 9)) := rfl
  exact ⟨hC, hZ, hA, (C9_homogeneous_legs hC hZ hA).1⟩

theorem withVol_nominal (vol : Nat) (cf : CashFlow) :
    (withVol vol cf).nominal = cf.nominal := by
  cases cf <;> rfl

theorem withVol_fixedRate (vol : Nat) (cf : CashFlow) :
    (withVol vol cf).fixedRate = cf.fixedRate := by
  cases cf <;> rfl

theorem withVol_gearing (vol : Nat) (cf : CashFlow) :
    (withVol vol cf).gearing = cf.gearing := by
  cases cf <;> rfl

theorem withVol_spread (vol : Nat) (cf : CashFlow) :
    (withVol vol cf).spread = cf.spread := by
  cases cf <;> rfl

theorem withVol_cap (vol : Nat) (cf : CashFlow) :
    (withVol vol cf).cap = cf.cap := by
  cases cf <;> rfl

theorem withVol_floor (vol : Nat) (cf : CashFlow) :
    (withVol vol cf).floor = cf.floor := by
  cases cf <;> rfl

theorem withVol_meanReversion (vol : Nat) (cf : CashFlow) :
    (withVol vol cf).meanReversion = cf.meanReversion := by
  cases cf <;> rfl

/-- The hand-rolled broadcast of the fixed-rate builder agrees with the
broadcaster on non-empty arrays, whatever the default. -/
theorem broadcast_eq_get (v : List ℚ) (hv : v ≠ []) (j : Nat) (d : ℚ) :
    (if j < v.length then v.getD j 0 else v.getLastD 0) = get v j d := by
  have hne : v.isEmpty = false := by simpa [List.isEmpty_iff] using hv
  by_cases h : j < v.length
  · simp [get, hne, h, List.getD_eq_getElem]
  · simp [get, hne, h, List.getLastD_eq_getLast?,
      List.getLast?_eq_getLast v hv]

theorem getD_zero_eq_get (v : List ℚ) (hv : v ≠ []) (d : ℚ) :
    v.getD 0 0 = get v 0 d := by
  have h0 : 0 < v.length := List.length_pos.mpr hv
  simpa [h0] using broadcast_eq_get v hv 0 d

theorem FixedRawLeg_params (hcr : couponRates ≠ []) (hn : nominals ≠ [])
    {j : Nat} (hj : j < s.size - 1) :
    ((FixedRawLeg s paymentAdjustment nominals couponRates dayCount
        firstPeriodDayCount).getD j dummyCashFlow).nominal
      = get nominals j NullReal ∧
    ((FixedRawLeg s paymentAdjustment nominals couponRates dayCount
        firstPeriodDayCount).getD j dummyCashFlow).fixedRate
      = get couponRates j NullReal := by
  rcases Nat.eq_zero_or_pos j with rfl | hj1
  · rw [FixedRawLeg, getD_buildLeg_zero]
    simp only [fixedFirstCoupon]
    split
    · exact ⟨getD_zero_eq_get nominals hn NullReal,
        getD_zero_eq_get couponRates hcr NullReal⟩
    · exact ⟨getD_zero_eq_get nominals hn NullReal,
        getD_zero_eq_get couponRates hcr NullReal⟩
  · by_cases hjm : j ≤ s.size - 3
    · rw [FixedRawLeg, getD_buildLeg_middle _ _ _ _ _ hj1 hjm]
      exact ⟨broadcast_eq_get nominals hn j NullReal,
        broadcast_eq_get couponRates hcr j NullReal⟩
    · have hsz : 2 < s.size := by omega
      have hidx : j = s.size - 3 + 1 := by omega
      have he2 : s.size - 3 + 1 = s.size - 2 := by omega
      rw [FixedRawLeg, hidx, getD_buildLeg_last, he2]
      simp only [fixedLastCoupons]
      rw [if_pos hsz]
      split
      · exact ⟨broadcast_eq_get nominals hn (s.size - 2) NullReal,
          broadcast_eq_get couponRates hcr (s.size - 2) NullReal⟩
      · exact ⟨broadcast_eq_get nominals hn (s.size - 2) NullReal,
          broadcast_eq_get couponRates hcr (s.size - 2) NullReal⟩

theorem CMSRawLeg_params {j : Nat} (hj : j < s.size - 1) :
    ((CMSRawLeg s paymentAdjustment nominals index settlementDays dayCounter
        gearings spreads caps floors meanReversions pricer).getD j
        dummyCashFlow).nominal = get nominals j NullReal ∧
    ((CMSRawLeg s paymentAdjustment nominals index settlementDays dayCounter
        gearings spreads caps floors meanReversions pricer).getD j
        dummyCashFlow).gearing = get gearings j 1 ∧
    ((CMSRawLeg s paymentAdjustment nominals index settlementDays dayCounter
        gearings spreads caps floors meanReversions pricer).getD j
        dummyCashFlow).spread = get spreads j 0 ∧
    ((CMSRawLeg s paymentAdjustment nominals index settlementDays dayCounter
        gearings spreads caps floors meanReversions pricer).getD j
        dummyCashFlow).cap = get caps j NullReal ∧
    ((CMSRawLeg s paymentAdjustment nominals index settlementDays dayCounter
        gearings spreads caps floors meanReversions pricer).getD j
        dummyCashFlow).floor = get floors j NullReal ∧
    ((CMSRawLeg s paymentAdjustment nominals index settlementDays dayCounter
        gearings spreads caps floors meanReversions pricer).getD j
        dummyCashFlow).meanReversion = get meanReversions j NullReal := by
  rcases Nat.eq_zero_or_pos j with rfl | hj1
  · rw [CMSRawLeg, getD_buildLeg_zero]
    simp only [cmsFirstCoupon, mkCMSCoupon]
    split
    · exact ⟨rfl, rfl, rfl, rfl, rfl, rfl⟩
    · exact ⟨rfl, rfl, rfl, rfl, rfl, rfl⟩
  · by_cases hjm : j ≤ s.size - 3
    · rw [CMSRawLeg, getD_buildLeg_middle _ _ _ _ _ hj1 hjm]
      exact ⟨rfl, rfl, rfl, rfl, rfl, rfl⟩
    · have hsz : 2 < s.size := by omega
      have hidx : j = s.size - 3 + 1 := by omega
      have he2 : s.size - 3 + 1 = s.size - 2 := by omega
      rw [CMSRawLeg, hidx, getD_buildLeg_last, he2]
      simp only [cmsLastCoupons, mkCMSCoupon]
      rw [if_pos hsz]
      split
      · exact ⟨rfl, rfl, rfl, rfl, rfl, rfl⟩
      · exact ⟨rfl, rfl, rfl, rfl, rfl, rfl⟩

theorem CMSZeroRawLeg_params {j : Nat} (hj : j < s.size - 1) :
    ((CMSZeroRawLeg s paymentAdjustment nominals index fixingDays dayCounter
        gearings spreads caps floors meanReversions pricer).getD j
        dummyCashFlow).nominal = get nominals j NullReal ∧
    ((CMSZeroRawLeg s paymentAdjustment nominals index fixingDays dayCounter
        gearings spreads caps floors meanReversions pricer).getD j
        dummyCashFlow).gearing = get gearings j 1 ∧
    ((CMSZeroRawLeg s paymentAdjustment nominals index fixingDays dayCounter
        gearings spreads caps floors meanReversions pricer).getD j
        dummyCashFlow).spread = get spreads j 0 ∧
    ((CMSZeroRawLeg s paymentAdjustment nominals index fixingDays dayCounter
        gearings spreads caps floors meanReversions pricer).getD j
        dummyCashFlow).cap = get caps j NullReal ∧
    ((CMSZeroRawLeg s paymentAdjustment nominals index fixingDays dayCounter
        gearings spreads caps floors meanReversions pricer).getD j
        dummyCashFlow).floor = get floors j NullReal ∧
    ((CMSZeroRawLeg s paymentAdjustment nominals index fixingDays dayCounter
        gearings spreads caps floors meanReversions pricer).getD j
        dummyCashFlow).meanReversion = get meanReversions j NullReal := by
  rcases Nat.eq_zero_or_pos j with rfl | hj1
  · rw [CMSZeroRawLeg, getD_buildLeg_zero]
    simp only [cmsZeroFirstCoupon, mkCMSCoupon]
    split
    · exact ⟨rfl, rfl, rfl, rfl, rfl, rfl⟩
    · exact ⟨rfl, rfl, rfl, rfl, rfl, rfl⟩
  · by_cases hjm : j ≤ s.size - 3
    · rw [CMSZeroRawLeg, getD_buildLeg_middle _ _ _ _ _ hj1 hjm]
      exact ⟨rfl, rfl, rfl, rfl, rfl, rfl⟩
    · have hsz : 2 < s.size := by omega
      have hidx : j = s.size - 3 + 1 := by omega
      have he2 : s.size - 3 + 1 = s.size - 2 := by omega
      rw [CMSZeroRawLeg, hidx, getD_buildLeg_last, he2]
      simp only [cmsZeroLastCoupons, mkCMSCoupon]
      rw [if_pos hsz]
      split
      · exact ⟨rfl, rfl, rfl, rfl, rfl, rfl⟩
      · exact ⟨rfl, rfl, rfl, rfl, rfl, rfl⟩

theorem CMSInArrearsRawLeg_params {j : Nat} (hj : j < s.size - 1) :
    ((CMSInArrearsRawLeg s paymentAdjustment nominals index fixingDays
        dayCounter gearings spreads caps floors meanReversions pricer).getD j
        dummyCashFlow).nominal = get nominals j NullReal ∧
    ((CMSInArrearsRawLeg s paymentAdjustment nominals index fixingDays
        dayCounter gearings spreads caps floors meanReversions pricer).getD j
        dummyCashFlow).gearing = get gearings j 1 ∧
    ((CMSInArrearsRawLeg s paymentAdjustment nominals index fixingDays
        dayCounter gearings spreads caps floors meanReversions pricer).getD j
        dummyCashFlow).spread = get spreads j 0 ∧
    ((CMSInArrearsRawLeg s paymentAdjustment nominals index fixingDays
        dayCounter gearings spreads caps floors meanReversions pricer).getD j
        dummyCashFlow).cap = get caps j NullReal ∧
    ((CMSInArrearsRawLeg s paymentAdjustment nominals index fixingDays
        dayCounter gearings spreads caps floors meanReversions pricer).getD j
        dummyCashFlow).floor = get floors j NullReal ∧
    ((CMSInArrearsRawLeg s paymentAdjustment nominals index fixingDays
        dayCounter gearings spreads caps floors meanReversions pricer).getD j
        dummyCashFlow).meanReversion = get meanReversions j NullReal := by
  rcases Nat.eq_zero_or_pos j with rfl | hj1
  · rw [CMSInArrearsRawLeg, getD_buildLeg_zero]
    simp only [cmsInArrearsFirstCoupon, mkCMSCoupon]
    split
    · exact ⟨rfl, rfl, rfl, rfl, rfl, rfl⟩
    · exact ⟨rfl, rfl, rfl, rfl, rfl, rfl⟩
  · by_cases hjm : j ≤ s.size - 3
    · rw [CMSInArrearsRawLeg, getD_buildLeg_middle _ _ _ _ _ hj1 hjm]
      exact ⟨rfl, rfl, rfl, rfl, rfl, rfl⟩
    · have hsz : 2 < s.size := by omega
      have hidx : j = s.size - 3 + 1 := by omega
      have he2 : s.size - 3 + 1 = s.size - 2 := by omega
      rw [CMSInArrearsRawLeg, hidx, getD_buildLeg_last, he2]
      simp only [cmsInArrearsLastCoupons, mkCMSCoupon]
      rw [if_pos hsz]
      split
      · exact ⟨rfl, rfl, rfl, rfl, rfl, rfl⟩
      · exact ⟨rfl, rfl, rfl, rfl, rfl, rfl⟩

/-- Claim C3: in every builder the leg-relative period index and the
broadcast index coincide: coupon j resolves its nominal and all its
rate-related parameters from the broadcast arrays at index j (period 0 at
index 0, the middle loop at source index i builds period i-1 from index
i-1, the last period N-2 reads index N-2). -/
theorem C3_broadcast_indices {legF legC legZ legA : List CashFlow}
    (hF : FixedRateCouponVector s paymentAdjustment nominals couponRates
      dayCount firstPeriodDayCount = Except.ok legF)
    (hC : CMSCouponVector s paymentAdjustment nominals index settlementDays
      dayCounter gearings spreads caps floors meanReversions pricer vol
      = Except.ok legC)
    (hZ : CMSZeroCouponVector s paymentAdjustment nominals index fixingDays
      dayCounter gearings spreads caps floors meanReversions pricer vol
      = Except.ok legZ)
    (hA : CMSInArrearsCouponVector s paymentAdjustment nominals index
      fixingDays dayCounter gearings spreads caps floors meanReversions
      pricer vol = Except.ok legA) :
    ∀ j, j < s.size - 1 →
      ((legF.getD j dummyCashFlow).nominal = get nominals j NullReal ∧
        (legF.getD j dummyCashFlow).fixedRate = get couponRates j NullReal) ∧
      ((legC.getD j dummyCashFlow).nominal = get nominals j NullReal ∧
        (legC.getD j dummyCashFlow).gearing = get gearings j 1 ∧
        (legC.getD j dummyCashFlow).spread = get spreads j 0 ∧
        (legC.getD j dummyCashFlow).cap = get caps j NullReal ∧
        (legC.getD j dummyCashFlow).floor = get floors j NullReal ∧
        (legC.getD j dummyCashFlow).meanReversion
          = get meanReversions j NullReal) ∧
      ((legZ.getD j dummyCashFlow).nominal = get nominals j NullReal ∧
        (legZ.getD j dummyCashFlow).gearing = get gearings j 1 ∧
        (legZ.getD j dummyCashFlow).spread = get spreads j 0 ∧
        (legZ.getD j dummyCashFlow).cap = get caps j NullReal ∧
        (legZ.getD j dummyCashFlow).floor = get floors j NullReal ∧
        (legZ.getD j dummyCashFlow).meanReversion
          = get meanReversions j NullReal) ∧
      ((legA.getD j dummyCashFlow).nominal = get nominals j NullReal ∧
        (legA.getD j dummyCashFlow).gearing = get gearings j 1 ∧
        (legA.getD j dummyCashFlow).spread = get spreads j 0 ∧
        (legA.getD j dummyCashFlow).cap = get caps j NullReal ∧
        (legA.getD j dummyCashFlow).floor = get floors j NullReal ∧
        (legA.getD j dummyCashFlow).meanReversion
          = get meanReversions j NullReal) := by
  obtain ⟨hcr, hn, rfl⟩ := FixedRateCouponVector_ok_inv hF
  obtain ⟨hnC, rfl⟩ := CMSCouponVector_ok_inv hC
  obtain ⟨hnZ, rfl⟩ := CMSZeroCouponVector_ok_inv hZ
  obtain ⟨hnA, rfl⟩ := CMSInArrearsCouponVector_ok_inv hA
  intro j hj
  refine ⟨FixedRawLeg_params hcr hn hj, ?_, ?_, ?_⟩
  · rw [getD_map_withVol]
    refine ⟨(withVol_nominal _ _).trans ?_, (withVol_gearing _ _).trans ?_,
      (withVol_spread _ _).trans ?_, (withVol_cap _ _).trans ?_,
      (withVol_floor _ _).trans ?_, (withVol_meanReversion _ _).trans ?_⟩
    · exact (CMSRawLeg_params hj).1
    · exact (CMSRawLeg_params hj).2.1
    · exact (CMSRawLeg_params hj).2.2.1
    · exact (CMSRawLeg_params hj).2.2.2.1
    · exact (CMSRawLeg_params hj).2.2.2.2.1
    · exact (CMSRawLeg_params hj).2.2.2.2.2
  · rw [getD_map_withVol]
    refine ⟨(withVol_nominal _ _).trans ?_, (withVol_gearing _ _).trans ?_,
      (withVol_spread _ _).trans ?_, (withVol_cap _ _).trans ?_,
      (withVol_floor _ _).trans ?_, (withVol_meanReversion _ _).trans ?_⟩
    · exact (CMSZeroRawLeg_params hj).1
    · exact (CMSZeroRawLeg_params hj).2.1
    · exact (CMSZeroRawLeg_params hj).2.2.1
    · exact (CMSZeroRawLeg_params hj).2.2.2.1
    · exact (CMSZeroRawLeg_params hj).2.2.2.2.1
    · exact (CMSZeroRawLeg_params hj).2.2.2.2.2
  · rw [getD_map_withVol]
    refine ⟨(withVol_nominal _ _).trans ?_, (withVol_gearing _ _).trans ?_,
      (withVol_spread _ _).trans ?_, (withVol_cap _ _).trans ?_,
      (withVol_floor _ _).trans ?_, (withVol_meanReversion _ _).trans ?_⟩
    · exact (CMSInArrearsRawLeg_params hj).1
    · exact (CMSInArrearsRawLeg_params hj).2.1
    · exact (CMSInArrearsRawLeg_params hj).2.2.1
    · exact (CMSInArrearsRawLeg_params hj).2.2.2.1
    · exact (CMSInArrearsRawLeg_params hj).2.2.2.2.1
    · exact (CMSInArrearsRawLeg_params hj).2.2.2.2.2

/-- Witness for C3 on a concrete three-date schedule with broadcast
arrays shorter than the period count, checked at period index 1. -/
theorem C3_broadcast_indices_witness :
    FixedRateCouponVector sched3 0 [100] [3] (some 1) none
      = Except.ok (FixedRawLeg sched3 0 [100] [3] (some 1) none) ∧
    CMSCouponVector sched3 0 [100] 7 2 (some 1) [2] [] [] [] [] 5 9
      = Except.ok ((CMSRawLeg sched3 0 [100] 7 2 (some 1) [2] [] [] [] []
          5).map (withVol 9)) ∧
    CMSZeroCouponVector sched3 0 [100] 7 2 (some 1) [2] [] [] [] [] 5 9
      = Except.ok ((CMSZeroRawLeg sched3 0 [100] 7 2 (some 1) [2] [] [] []
          [] 5).map (withVol 9)) ∧
    CMSInArrearsCouponVector sched3 0 [100] 7 2 (some 1) [2] [] [] [] [] 5 9
      = Except.ok ((CMSInArrearsRawLeg sched3 0 [100] 7 2 (some 1) [2] [] []
          [] [] 5).map (withVol 9)) ∧
    ((FixedRawLeg sched3 0 [100] [3] (some 1) none).getD 1
        dummyCashFlow).nominal = get [100] 1 NullReal ∧
    ((FixedRawLeg sched3 0 [100] [3] (some 1) none).getD 1
        dummyCashFlow).fixedRate = get [3] 1 NullReal := by
  have hF : FixedRateCouponVector sched3 0 [100] [3] (some 1) none
      = Except.ok (FixedRawLeg sched3 0 [100] [3] (some 1) none) := rfl
  have hC : CMSCouponVector sched3 0 [100] 7 2 (some 1) [2] [] [] [] [] 5 9
      = Except.ok ((CMSRawLeg sched3 0 [100] 7 2 (some 1) [2] [] [] [] []
          5).map (withVol 9)) := rfl
  have hZ : CMSZeroCouponVector sched3 0 [100] 7 2 (some 1) [2] [] [] [] []
        5 9
      = Except.ok ((CMSZeroRawLeg sched3 0 [100] 7 2 (some 1) [2] [] [] []
          [] 5).map (withVol 9)) := rfl
  have hA : CMSInArrearsCouponVector sched3 0 [100] 7 2 (some 1) [2] [] [] []
        [] 5 9
      = Except.ok ((CMSInArrearsRawLeg sched3 0 [100] 7 2 (some 1) [2] [] []
          [] [] 5).map (withVol 9)) := rfl
  exact ⟨hF, hC, hZ, hA, (C3_broadcast_indices hF hC hZ hA 1 (by decide)).1⟩

theorem FixedRawLeg_stub :
    (s.isRegular 1 = false →
      ((FixedRawLeg s paymentAdjustment nominals couponRates dayCount
          firstPeriodDayCount).getD 0 dummyCashFlow).refPeriodEnd
        = ((FixedRawLeg s paymentAdjustment nominals couponRates dayCount
          firstPeriodDayCount).getD 0 dummyCashFlow).accrualEnd ∧
      ((FixedRawLeg s paymentAdjustment nominals couponRates dayCount
          firstPeriodDayCount).getD 0 dummyCashFlow).refPeriodStart
        = s.calendar.adjust (s.date 1 - s.tenor) s.businessDayConvention) ∧
    (s.isRegular 1 = true →
      ((FixedRawLeg s paymentAdjustment nominals couponRates dayCount
          firstPeriodDayCount).getD 0 dummyCashFlow).refPeriodStart
        = ((FixedRawLeg s paymentAdjustment nominals couponRates dayCount
          firstPeriodDayCount).getD 0 dummyCashFlow).accrualStart ∧
      ((FixedRawLeg s paymentAdjustment nominals couponRates dayCount
          firstPeriodDayCount).getD 0 dummyCashFlow).refPeriodEnd
        = ((FixedRawLeg s paymentAdjustment nominals couponRates dayCount
          firstPeriodDayCount).getD 0 dummyCashFlow).accrualEnd) ∧
    (2 < s.size → s.isRegular (s.size - 1) = false →
      ((FixedRawLeg s paymentAdjustment nominals couponRates dayCount
          firstPeriodDayCount).getD (s.size - 2) dummyCashFlow).refPeriodStart
        = ((FixedRawLeg s paymentAdjustment nominals couponRates dayCount
          firstPeriodDayCount).getD (s.size - 2) dummyCashFlow).accrualStart ∧
      ((FixedRawLeg s paymentAdjustment nominals couponRates dayCount
          firstPeriodDayCount).getD (s.size - 2) dummyCashFlow).refPeriodEnd
        = s.calendar.adjust
            (((FixedRawLeg s paymentAdjustment nominals couponRates dayCount
              firstPeriodDayCount).getD (s.size - 2)
              dummyCashFlow).accrualStart + s.tenor)
            s.businessDayConvention) ∧
    (2 < s.size → s.isRegular (s.size - 1) = true →
      ((FixedRawLeg s paymentAdjustment nominals couponRates dayCount
          firstPeriodDayCount).getD (s.size - 2) dummyCashFlow).refPeriodStart
        = ((FixedRawLeg s paymentAdjustment nominals couponRates dayCount
          firstPeriodDayCount).getD (s.size - 2) dummyCashFlow).accrualStart ∧
      ((FixedRawLeg s paymentAdjustment nominals couponRates dayCount
          firstPeriodDayCount).getD (s.size - 2) dummyCashFlow).refPeriodEnd
        = ((FixedRawLeg s paymentAdjustment nominals couponRates dayCount
          firstPeriodDayCount).getD (s.size - 2) dummyCashFlow).accrualEnd) ∧
    (∀ j, 1 ≤ j → j ≤ s.size - 3 →
      ((FixedRawLeg s paymentAdjustment nominals couponRates dayCount
          firstPeriodDayCount).getD j dummyCashFlow).refPeriodStart
        = ((FixedRawLeg s paymentAdjustment nominals couponRates dayCount
          firstPeriodDayCount).getD j dummyCashFlow).accrualStart ∧
      ((FixedRawLeg s paymentAdjustment nominals couponRates dayCount
          firstPeriodDayCount).getD j dummyCashFlow).refPeriodEnd
        = ((FixedRawLeg s paymentAdjustment nominals couponRates dayCount
          firstPeriodDayCount).getD j dummyCashFlow).accrualEnd) := by
  refine ⟨fun hirr => ?_, fun hreg => ?_, fun hsz hirr => ?_,
    fun hsz hreg => ?_, fun j hj1 hjm => ?_⟩
  · rw [FixedRawLeg, getD_buildLeg_zero]
    simp [fixedFirstCoupon, hirr]
    exact ⟨rfl, rfl⟩
  · rw [FixedRawLeg, getD_buildLeg_zero]
    simp [fixedFirstCoupon, hreg]
    exact ⟨rfl, rfl⟩
  · have he2 : s.size - 2 = s.size - 3 + 1 := by omega
    rw [FixedRawLeg, he2, getD_buildLeg_last]
    simp only [fixedLastCoupons]
    rw [if_pos hsz]
    simp [hirr]
    exact ⟨rfl, rfl⟩
  · have he2 : s.size - 2 = s.size - 3 + 1 := by omega
    rw [FixedRawLeg, he2, getD_buildLeg_last]
    simp only [fixedLastCoupons]
    rw [if_pos hsz]
    simp [hreg]
    exact ⟨rfl, rfl⟩
  · rw [FixedRawLeg, getD_buildLeg_middle _ _ _ _ _ hj1 hjm]
    exact ⟨rfl, rfl⟩

theorem CMSRawLeg_stub :
    (s.isRegular 1 = false →
      ((CMSRawLeg s paymentAdjustment nominals index settlementDays
          dayCounter gearings spreads caps floors meanReversions
          pricer).getD 0 dummyCashFlow).refPeriodEnd
        = ((CMSRawLeg s paymentAdjustment nominals index settlementDays
          dayCounter gearings spreads caps floors meanReversions
          pricer).getD 0 dummyCashFlow).accrualEnd ∧
      ((CMSRawLeg s paymentAdjustment nominals index settlementDays
          dayCounter gearings spreads caps floors meanReversions
          pricer).getD 0 dummyCashFlow).refPeriodStart
        = s.calendar.adjust (s.date 1 - s.tenor) paymentAdjustment) ∧
    (s.isRegular 1 = true →
      ((CMSRawLeg s paymentAdjustment nominals index settlementDays
          dayCounter gearings spreads caps floors meanReversions
          pricer).getD 0 dummyCashFlow).refPeriodStart
        = ((CMSRawLeg s paymentAdjustment nominals index settlementDays
          dayCounter gearings spreads caps floors meanReversions
          pricer).getD 0 dummyCashFlow).accrualStart ∧
      ((CMSRawLeg s paymentAdjustment nominals index settlementDays
          dayCounter gearings spreads caps floors meanReversions
          pricer).getD 0 dummyCashFlow).refPeriodEnd
        = ((CMSRawLeg s paymentAdjustment nominals index settlementDays
          dayCounter gearings spreads caps floors meanReversions
          pricer).getD 0 dummyCashFlow).accrualEnd) ∧
    (2 < s.size → s.isRegular (s.size - 1) = false →
      ((CMSRawLeg s paymentAdjustment nominals index settlementDays
          dayCounter gearings spreads caps floors meanReversions
          pricer).getD (s.size - 2) dummyCashFlow).refPeriodStart
        = ((CMSRawLeg s paymentAdjustment nominals index settlementDays
          dayCounter gearings spreads caps floors meanReversions
          pricer).getD (s.size - 2) dummyCashFlow).accrualStart ∧
      ((CMSRawLeg s paymentAdjustment nominals index settlementDays
          dayCounter gearings spreads caps floors meanReversions
          pricer).getD (s.size - 2) dummyCashFlow).refPeriodEnd
        = s.calendar.adjust
            (((CMSRawLeg s paymentAdjustment nominals index settlementDays
              dayCounter gearings spreads caps floors meanReversions
              pricer).getD (s.size - 2) dummyCashFlow).accrualStart
              + s.tenor) paymentAdjustment) ∧
    (2 < s.size → s.isRegular (s.size - 1) = true →
      ((CMSRawLeg s paymentAdjustment nominals index settlementDays
          dayCounter gearings spreads caps floors meanReversions
          pricer).getD (s.size - 2) dummyCashFlow).refPeriodStart
        = ((CMSRawLeg s paymentAdjustment nominals index settlementDays
          dayCounter gearings spreads caps floors meanReversions
          pricer).getD (s.size - 2) dummyCashFlow).accrualStart ∧
      ((CMSRawLeg s paymentAdjustment nominals index settlementDays
          dayCounter gearings spreads caps floors meanReversions
          pricer).getD (s.size - 2) dummyCashFlow).refPeriodEnd
        = ((CMSRawLeg s paymentAdjustment nominals index settlementDays
          dayCounter gearings spreads caps floors meanReversions
          pricer).getD (s.size - 2) dummyCashFlow).accrualEnd) ∧
    (∀ j, 1 ≤ j → j ≤ s.size - 3 →
      ((CMSRawLeg s paymentAdjustment nominals index settlementDays
          dayCounter gearings spreads caps floors meanReversions
          pricer).getD j dummyCashFlow).refPeriodStart
        = ((CMSRawLeg s paymentAdjustment nominals index settlementDays
          dayCounter gearings spreads caps floors meanReversions
          pricer).getD j dummyCashFlow).accrualStart ∧
      ((CMSRawLeg s paymentAdjustment nominals index settlementDays
          dayCounter gearings spreads caps floors meanReversions
          pricer).getD j dummyCashFlow).refPeriodEnd
        = ((CMSRawLeg s paymentAdjustment nominals index settlementDays
          dayCounter gearings spreads caps floors meanReversions
          pricer).getD j dummyCashFlow).accrualEnd) := by
  refine ⟨fun hirr => ?_, fun hreg => ?_, fun hsz hirr => ?_,
    fun hsz hreg => ?_, fun j hj1 hjm => ?_⟩
  · rw [CMSRawLeg, getD_buildLeg_zero]
    simp [cmsFirstCoupon, mkCMSCoupon, hirr]
    exact ⟨rfl, rfl⟩
  · rw [CMSRawLeg, getD_buildLeg_zero]
    simp [cmsFirstCoupon, mkCMSCoupon, hreg]
    exact ⟨rfl, rfl⟩
  · have he2 : s.size - 2 = s.size - 3 + 1 := by omega
    rw [CMSRawLeg, he2, getD_buildLeg_last]
    simp only [cmsLastCoupons, mkCMSCoupon]
    rw [if_pos hsz]
    simp [hirr]
    exact ⟨rfl, rfl⟩
  · have he2 : s.size - 2 = s.size - 3 + 1 := by omega
    rw [CMSRawLeg, he2, getD_buildLeg_last]
    simp only [cmsLastCoupons, mkCMSCoupon]
    rw [if_pos hsz]
    simp [hreg]
    exact ⟨rfl, rfl⟩
  · rw [CMSRawLeg, getD_buildLeg_middle _ _ _ _ _ hj1 hjm]
    exact ⟨rfl, rfl⟩

theorem CMSZeroRawLeg_stub :
    (s.isRegular 1 = false →
      ((CMSZeroRawLeg s paymentAdjustment nominals index fixingDays
          dayCounter gearings spreads caps floors meanReversions
          pricer).getD 0 dummyCashFlow).refPeriodEnd
        = ((CMSZeroRawLeg s paymentAdjustment nominals index fixingDays
          dayCounter gearings spreads caps floors meanReversions
          pricer).getD 0 dummyCashFlow).accrualEnd ∧
      ((CMSZeroRawLeg s paymentAdjustment nominals index fixingDays
          dayCounter gearings spreads caps floors meanReversions
          pricer).getD 0 dummyCashFlow).refPeriodStart
        = s.calendar.adjust (s.date 1 - s.tenor) paymentAdjustment) ∧
    (s.isRegular 1 = true →
      ((CMSZeroRawLeg s paymentAdjustment nominals index fixingDays
          dayCounter gearings spreads caps floors meanReversions
          pricer).getD 0 dummyCashFlow).refPeriodStart
        = ((CMSZeroRawLeg s paymentAdjustment nominals index fixingDays
          dayCounter gearings spreads caps floors meanReversions
          pricer).getD 0 dummyCashFlow).accrualStart ∧
      ((CMSZeroRawLeg s paymentAdjustment nominals index fixingDays
          dayCounter gearings spreads caps floors meanReversions
          pricer).getD 0 dummyCashFlow).refPeriodEnd
        = ((CMSZeroRawLeg s paymentAdjustment nominals index fixingDays
          dayCounter gearings spreads caps floors meanReversions
          pricer).getD 0 dummyCashFlow).accrualEnd) ∧
    (2 < s.size → s.isRegular (s.size - 1) = false →
      ((CMSZeroRawLeg s paymentAdjustment nominals index fixingDays
          dayCounter gearings spreads caps floors meanReversions
          pricer).getD (s.size - 2) dummyCashFlow).refPeriodStart
        = ((CMSZeroRawLeg s paymentAdjustment nominals index fixingDays
          dayCounter gearings spreads caps floors meanReversions
          pricer).getD (s.size - 2) dummyCashFlow).accrualStart ∧
      ((CMSZeroRawLeg s paymentAdjustment nominals index fixingDays
          dayCounter gearings spreads caps floors meanReversions
          pricer).getD (s.size - 2) dummyCashFlow).refPeriodEnd
        = s.calendar.adjust
            (((CMSZeroRawLeg s paymentAdjustment nominals index fixingDays
              dayCounter gearings spreads caps floors meanReversions
              pricer).getD (s.size - 2) dummyCashFlow).accrualStart
              + s.tenor) paymentAdjustment) ∧
    (2 < s.size → s.isRegular (s.size - 1) = true →
      ((CMSZeroRawLeg s paymentAdjustment nominals index fixingDays
          dayCounter gearings spreads caps floors meanReversions
          pricer).getD (s.size - 2) dummyCashFlow).refPeriodStart
        = ((CMSZeroRawLeg s paymentAdjustment nominals index fixingDays
          dayCounter gearings spreads caps floors meanReversions
          pricer).getD (s.size - 2) dummyCashFlow).accrualStart ∧
      ((CMSZeroRawLeg s paymentAdjustment nominals index fixingDays
          dayCounter gearings spreads caps floors meanReversions
          pricer).getD (s.size - 2) dummyCashFlow).refPeriodEnd
        = ((CMSZeroRawLeg s paymentAdjustment nominals index fixingDays
          dayCounter gearings spreads caps floors meanReversions
          pricer).getD (s.size - 2) dummyCashFlow).accrualEnd) ∧
    (∀ j, 1 ≤ j → j ≤ s.size - 3 →
      ((CMSZeroRawLeg s paymentAdjustment nominals index fixingDays
          dayCounter gearings spreads caps floors meanReversions
          pricer).getD j dummyCashFlow).refPeriodStart
        = ((CMSZeroRawLeg s paymentAdjustment nominals index fixingDays
          dayCounter gearings spreads caps floors meanReversions
          pricer).getD j dummyCashFlow).accrualStart ∧
      ((CMSZeroRawLeg s paymentAdjustment nominals index fixingDays
          dayCounter gearings spreads caps floors meanReversions
          pricer).getD j dummyCashFlow).refPeriodEnd
        = ((CMSZeroRawLeg s paymentAdjustment nominals index fixingDays
          dayCounter gearings spreads caps floors meanReversions
          pricer).getD j dummyCashFlow).accrualEnd) := by
  refine ⟨fun hirr => ?_, fun hreg => ?_, fun hsz hirr => ?_,
    fun hsz hreg => ?_, fun j hj1 hjm => ?_⟩
  · rw [CMSZeroRawLeg, getD_buildLeg_zero]
    simp [cmsZeroFirstCoupon, mkCMSCoupon, hirr]
    exact ⟨rfl, rfl⟩
  · rw [CMSZeroRawLeg, getD_buildLeg_zero]
    simp [cmsZeroFirstCoupon, mkCMSCoupon, hreg]
    exact ⟨rfl, rfl⟩
  · have he2 : s.size - 2 = s.size - 3 + 1 := by omega
    rw [CMSZeroRawLeg, he2, getD_buildLeg_last]
    simp only [cmsZeroLastCoupons, mkCMSCoupon]
    rw [if_pos hsz]
    simp [hirr]
    exact ⟨rfl, rfl⟩
  · have he2 : s.size - 2 = s.size - 3 + 1 := by omega
    rw [CMSZeroRawLeg, he2, getD_buildLeg_last]
    simp only [cmsZeroLastCoupons, mkCMSCoupon]
    rw [if_pos hsz]
    simp [hreg]
    exact ⟨rfl, rfl⟩
  · rw [CMSZeroRawLeg, getD_buildLeg_middle _ _ _ _ _ hj1 hjm]
    exact ⟨rfl, rfl⟩

theorem CMSInArrearsRawLeg_stub :
    (s.isRegular 1 = false →
      ((CMSInArrearsRawLeg s paymentAdjustment nominals index fixingDays
          dayCounter gearings spreads caps floors meanReversions
          pricer).getD 0 dummyCashFlow).refPeriodEnd
        = ((CMSInArrearsRawLeg s paymentAdjustment nominals index fixingDays
          dayCounter gearings spreads caps floors meanReversions
          pricer).getD 0 dummyCashFlow).accrualEnd ∧
      ((CMSInArrearsRawLeg s paymentAdjustment nominals index fixingDays
          dayCounter gearings spreads caps floors meanReversions
          pricer).getD 0 dummyCashFlow).refPeriodStart
        = s.calendar.adjust (s.date 1 - s.tenor) paymentAdjustment) ∧
    (s.isRegular 1 = true →
      ((CMSInArrearsRawLeg s paymentAdjustment nominals index fixingDays
          dayCounter gearings spreads caps floors meanReversions
          pricer).getD 0 dummyCashFlow).refPeriodStart
        = ((CMSInArrearsRawLeg s paymentAdjustment nominals index fixingDays
          dayCounter gearings spreads caps floors meanReversions
          pricer).getD 0 dummyCashFlow).accrualStart ∧
      ((CMSInArrearsRawLeg s paymentAdjustment nominals index fixingDays
          dayCounter gearings spreads caps floors meanReversions
          pricer).getD 0 dummyCashFlow).refPeriodEnd
        = ((CMSInArrearsRawLeg s paymentAdjustment nominals index fixingDays
          dayCounter gearings spreads caps floors meanReversions
          pricer).getD 0 dummyCashFlow).accrualEnd) ∧
    (2 < s.size → s.isRegular (s.size - 1) = false →
      ((CMSInArrearsRawLeg s paymentAdjustment nominals index fixingDays
          dayCounter gearings spreads caps floors meanReversions
          pricer).getD (s.size - 2) dummyCashFlow).refPeriodStart
        = ((CMSInArrearsRawLeg s paymentAdjustment nominals index fixingDays
          dayCounter gearings spreads caps floors meanReversions
          pricer).getD (s.size - 2) dummyCashFlow).accrualStart ∧
      ((CMSInArrearsRawLeg s paymentAdjustment nominals index fixingDays
          dayCounter gearings spreads caps floors meanReversions
          pricer).getD (s.size - 2) dummyCashFlow).refPeriodEnd
        = s.calendar.adjust
            (((CMSInArrearsRawLeg s paymentAdjustment nominals index fixingDays
              dayCounter gearings spreads caps floors meanReversions
              pricer).getD (s.size - 2) dummyCashFlow).accrualStart
              + s.tenor) paymentAdjustment) ∧
    (2 < s.size → s.isRegular (s.size - 1) = true →
      ((CMSInArrearsRawLeg s paymentAdjustment nominals index fixingDays
          dayCounter gearings spreads caps floors meanReversions
          pricer).getD (s.size - 2) dummyCashFlow).refPeriodStart
        = ((CMSInArrearsRawLeg s paymentAdjustment nominals index fixingDays
          dayCounter gearings spreads caps floors meanReversions
          pricer).getD (s.size - 2) dummyCashFlow).accrualStart ∧
      ((CMSInArrearsRawLeg s paymentAdjustment nominals index fixingDays
          dayCounter gearings spreads caps floors meanReversions
          pricer).getD (s.size - 2) dummyCashFlow).refPeriodEnd
        = ((CMSInArrearsRawLeg s paymentAdjustment nominals index fixingDays
          dayCounter gearings spreads caps floors meanReversions
          pricer).getD (s.size - 2) dummyCashFlow).accrualEnd) ∧
    (∀ j, 1 ≤ j → j ≤ s.size - 3 →
      ((CMSInArrearsRawLeg s paymentAdjustment nominals index fixingDays
          dayCounter gearings spreads caps floors meanReversions
          pricer).getD j dummyCashFlow).refPeriodStart
        = ((CMSInArrearsRawLeg s paymentAdjustment nominals index fixingDays
          dayCounter gearings spreads caps floors meanReversions
          pricer).getD j dummyCashFlow).accrualStart ∧
      ((CMSInArrearsRawLeg s paymentAdjustment nominals index fixingDays
          dayCounter gearings spreads caps floors meanReversions
          pricer).getD j dummyCashFlow).refPeriodEnd
        = ((CMSInArrearsRawLeg s paymentAdjustment nominals index fixingDays
          dayCounter gearings spreads caps floors meanReversions
          pricer).getD j dummyCashFlow).accrualEnd) := by
  refine ⟨fun hirr => ?_, fun hreg => ?_, fun hsz hirr => ?_,
    fun hsz hreg => ?_, fun j hj1 hjm => ?_⟩
  · rw [CMSInArrearsRawLeg, getD_buildLeg_zero]
    simp [cmsInArrearsFirstCoupon, mkCMSCoupon, hirr]
    exact ⟨rfl, rfl⟩
  · rw [CMSInArrearsRawLeg, getD_buildLeg_zero]
    simp [cmsInArrearsFirstCoupon, mkCMSCoupon, hreg]
    exact ⟨rfl, rfl⟩
  · have he2 : s.size - 2 = s.size - 3 + 1 := by omega
    rw [CMSInArrearsRawLeg, he2, getD_buildLeg_last]
    simp only [cmsInArrearsLastCoupons, mkCMSCoupon]
    rw [if_pos hsz]
    simp [hirr]
    exact ⟨rfl, rfl⟩
  · have he2 : s.size - 2 = s.size - 3 + 1 := by omega
    rw [CMSInArrearsRawLeg, he2, getD_buildLeg_last]
    simp only [cmsInArrearsLastCoupons, mkCMSCoupon]
    rw [if_pos hsz]
    simp [hreg]
    exact ⟨rfl, rfl⟩
  · rw [CMSInArrearsRawLeg, getD_buildLeg_middle _ _ _ _ _ hj1 hjm]
    exact ⟨rfl, rfl⟩

theorem StubSpec_map_withVol {conv : BusinessDayConvention}
    {leg2 : List CashFlow} (h : StubSpec s conv leg2) :
    StubSpec s conv (leg2.map (withVol vol)) := by
  obtain ⟨h1, h2, h3, h4, h5⟩ := h
  refine ⟨fun hirr => ?_, fun hreg => ?_, fun hsz hirr => ?_,
    fun hsz hreg => ?_, fun j hj1 hjm => ?_⟩
  · rw [getD_map_withVol, withVol_refPeriodEnd, withVol_accrualEnd,
      withVol_refPeriodStart]
    exact h1 hirr
  · rw [getD_map_withVol, withVol_refPeriodStart, withVol_accrualStart,
      withVol_refPeriodEnd, withVol_accrualEnd]
    exact h2 hreg
  · rw [getD_map_withVol, withVol_refPeriodStart, withVol_accrualStart,
      withVol_refPeriodEnd]
    exact h3 hsz hirr
  · rw [getD_map_withVol, withVol_refPeriodStart, withVol_accrualStart,
      withVol_refPeriodEnd, withVol_accrualEnd]
    exact h4 hsz hreg
  · rw [getD_map_withVol, withVol_refPeriodStart, withVol_accrualStart,
      withVol_refPeriodEnd, withVol_accrualEnd]
    exact h5 j hj1 hjm

/-- Claim C5: in every builder an irregular first period keeps its accrual
end as reference end and gets reference start adjust(date 1 - tenor); an
irregular last period (N > 2) keeps its accrual start and gets reference
end adjust(accrual start + tenor); regular first and last periods and all
middle periods have reference dates equal to their accrual dates. The
adjustment convention is the one each builder uses. -/
theorem C5_stub_reference_dates {legF legC legZ legA : List CashFlow}
    (hF : FixedRateCouponVector s paymentAdjustment nominals couponRates
      dayCount firstPeriodDayCount = Except.ok legF)
    (hC : CMSCouponVector s paymentAdjustment nominals index settlementDays
      dayCounter gearings spreads caps floors meanReversions pricer vol
      = Except.ok legC)
    (hZ : CMSZeroCouponVector s paymentAdjustment nominals index fixingDays
      dayCounter gearings spreads caps floors meanReversions pricer vol
      = Except.ok legZ)
    (hA : CMSInArrearsCouponVector s paymentAdjustment nominals index
      fixingDays dayCounter gearings spreads caps floors meanReversions
      pricer vol = Except.ok legA) :
    StubSpec s s.businessDayConvention legF ∧
    StubSpec s paymentAdjustment legC ∧
    StubSpec s paymentAdjustment legZ ∧
    StubSpec s paymentAdjustment legA := by
  obtain ⟨hcr, hn, rfl⟩ := FixedRateCouponVector_ok_inv hF
  obtain ⟨hnC, rfl⟩ := CMSCouponVector_ok_inv hC
  obtain ⟨hnZ, rfl⟩ := CMSZeroCouponVector_ok_inv hZ
  obtain ⟨hnA, rfl⟩ := CMSInArrearsCouponVector_ok_inv hA
  exact ⟨FixedRawLeg_stub, StubSpec_map_withVol CMSRawLeg_stub,
    StubSpec_map_withVol CMSZeroRawLeg_stub,
    StubSpec_map_withVol CMSInArrearsRawLeg_stub⟩

/-- Witness for C5 on a four-date schedule with irregular first and last
periods, checked on the reference start of the first coupon of the
fixed-rate leg. -/
theorem C5_stub_reference_dates_witness :
    FixedRateCouponVector sched4stub 0 [100] [3] (some 1) none
      = Except.ok (FixedRawLeg sched4stub 0 [100] [3] (some 1) none) ∧
    CMSCouponVector sched4stub 0 [100] 7 2 (some 1) [] [] [] [] [] 5 9
      = Except.ok ((CMSRawLeg sched4stub 0 [100] 7 2 (some 1) [] [] [] [] []
          5).map (withVol 9)) ∧
    CMSZeroCouponVector sched4stub 0 [100] 7 2 (some 1) [] [] [] [] [] 5 9
      = Except.ok ((CMSZeroRawLeg sched4stub 0 [100] 7 2 (some 1) [] [] []
          [] [] 5).map (withVol 9)) ∧
    CMSInArrearsCouponVector sched4stub 0 [100] 7 2 (some 1) [] [] [] [] []
        5 9
      = Except.ok ((CMSInArrearsRawLeg sched4stub 0 [100] 7 2 (some 1) [] []
          [] [] [] 5).map (withVol 9)) ∧
    sched4stub.isRegular 1 = false ∧
    ((FixedRawLeg sched4stub 0 [100] [3] (some 1) none).getD 0
        dummyCashFlow).refPeriodStart
      = sched4stub.calendar.adjust (sched4stub.date 1 - sched4stub.tenor)
          sched4stub.businessDayConvention := by
  have hF : FixedRateCouponVector sched4stub 0 [100] [3] (some 1) none
      = Except.ok (FixedRawLeg sched4stub 0 [100] [3] (some 1) none) := rfl
  have hC : CMSCouponVector sched4stub 0 [100] 7 2 (some 1) [] [] [] [] [] 5 9
      = Except.ok ((CMSRawLeg sched4stub 0 [100] 7 2 (some 1) [] [] [] [] []
          5).map (withVol 9)) := rfl
  have hZ : CMSZeroCouponVector sched4stub 0 [100] 7 2 (some 1) [] [] [] []
        [] 5 9
      = Except.ok ((CMSZeroRawLeg sched4stub 0 [100] 7 2 (some 1) [] [] []
          [] [] 5).map (withVol 9)) := rfl
  have hA : CMSInArrearsCouponVector sched4stub 0 [100] 7 2 (some 1) [] []
        [] [] [] 5 9
      = Except.ok ((CMSInArrearsRawLeg sched4stub 0 [100] 7 2 (some 1) [] []
          [] [] [] 5).map (withVol 9)) := rfl
  exact ⟨hF, hC, hZ, hA, rfl,
    ((C5_stub_reference_dates hF hC hZ hA).1.1 rfl).2⟩

/-- Claim C10: the fixed-rate builder adjusts irregular-stub reference
dates with the schedule business-day convention while the three CMS
builders use the caller-supplied payment adjustment convention, and on a
schedule where the two conventions act differently the fixed-rate and CMS
builders produce different first-stub reference starts. -/
theorem C10_stub_convention_asymmetry {legF legC legZ legA : List CashFlow}
    (hirr : s.isRegular 1 = false)
    (hF : FixedRateCouponVector s paymentAdjustment nominals couponRates
      dayCount firstPeriodDayCount = Except.ok legF)
    (hC : CMSCouponVector s paymentAdjustment nominals index settlementDays
      dayCounter gearings spreads caps floors meanReversions pricer vol
      = Except.ok legC)
    (hZ : CMSZeroCouponVector s paymentAdjustment nominals index fixingDays
      dayCounter gearings spreads caps floors meanReversions pricer vol
      = Except.ok legZ)
    (hA : CMSInArrearsCouponVector s paymentAdjustment nominals index
      fixingDays dayCounter gearings spreads caps floors meanReversions
      pricer vol = Except.ok legA) :
    (legF.getD 0 dummyCashFlow).refPeriodStart
      = s.calendar.adjust (s.date 1 - s.tenor) s.businessDayConvention ∧
    (legC.getD 0 dummyCashFlow).refPeriodStart
      = s.calendar.adjust (s.date 1 - s.tenor) paymentAdjustment ∧
    (legZ.getD 0 dummyCashFlow).refPeriodStart
      = s.calendar.adjust (s.date 1 - s.tenor) paymentAdjustment ∧
    (legA.getD 0 dummyCashFlow).refPeriodStart
      = s.calendar.adjust (s.date 1 - s.tenor) paymentAdjustment ∧
    (∃ legF0 legC0 : List CashFlow,
      FixedRateCouponVector sched2stub 1 [100] [3] (some 1) none
        = Except.ok legF0 ∧
      CMSCouponVector sched2stub 1 [100] 7 2 (some 1) [] [] [] [] [] 5 9
        = Except.ok legC0 ∧
      sched2stub.businessDayConvention ≠ 1 ∧
      (legF0.getD 0 dummyCashFlow).refPeriodStart
        ≠ (legC0.getD 0 dummyCashFlow).refPeriodStart) := by
  obtain ⟨hcr, hn, rfl⟩ := FixedRateCouponVector_ok_inv hF
  obtain ⟨hnC, rfl⟩ := CMSCouponVector_ok_inv hC
  obtain ⟨hnZ, rfl⟩ := CMSZeroCouponVector_ok_inv hZ
  obtain ⟨hnA, rfl⟩ := CMSInArrearsCouponVector_ok_inv hA
  refine ⟨(FixedRawLeg_stub.1 hirr).2,
    ((StubSpec_map_withVol CMSRawLeg_stub).1 hirr).2,
    ((StubSpec_map_withVol CMSZeroRawLeg_stub).1 hirr).2,
    ((StubSpec_map_withVol CMSInArrearsRawLeg_stub).1 hirr).2, ?_⟩
  exact ⟨FixedRawLeg sched2stub 1 [100] [3] (some 1) none,
    (CMSRawLeg sched2stub 1 [100] 7 2 (some 1) [] [] [] [] [] 5).map
      (withVol 9), rfl, rfl, by decide, by decide⟩

/-- Witness for C10 on the two-date stub schedule over the
convention-sensitive calendar. -/
theorem C10_stub_convention_asymmetry_witness :
    sched2stub.isRegular 1 = false ∧
    FixedRateCouponVector sched2stub 1 [100] [3] (some 1) none
      = Except.ok (FixedRawLeg sched2stub 1 [100] [3] (some 1) none) ∧
    CMSCouponVector sched2stub 1 [100] 7 2 (some 1) [] [] [] [] [] 5 9
      = Except.ok ((CMSRawLeg sched2stub 1 [100] 7 2 (some 1) [] [] [] [] []
          5).map (withVol 9)) ∧
    CMSZeroCouponVector sched2stub 1 [100] 7 2 (some 1) [] [] [] [] [] 5 9
      = Except.ok ((CMSZeroRawLeg sched2stub 1 [100] 7 2 (some 1) [] [] []
          [] [] 5).map (withVol 9)) ∧
    CMSInArrearsCouponVector sched2stub 1 [100] 7 2 (some 1) [] [] [] [] []
        5 9
      = Except.ok ((CMSInArrearsRawLeg sched2stub 1 [100] 7 2 (some 1) [] []
          [] [] [] 5).map (withVol 9)) ∧
    ((FixedRawLeg sched2stub 1 [100] [3] (some 1) none).getD 0
        dummyCashFlow).refPeriodStart
      = sched2stub.calendar.adjust (sched2stub.date 1 - sched2stub.tenor)
          sched2stub.businessDayConvention := by
  have hF : FixedRateCouponVector sched2stub 1 [100] [3] (some 1) none
      = Except.ok (FixedRawLeg sched2stub 1 [100] [3] (some 1) none) := rfl
  have hC : CMSCouponVector sched2stub 1 [100] 7 2 (some 1) [] [] [] [] [] 5 9
      = Except.ok ((CMSRawLeg sched2stub 1 [100] 7 2 (some 1) [] [] [] [] []
          5).map (withVol 9)) := rfl
  have hZ : CMSZeroCouponVector sched2stub 1 [100] 7 2 (some 1) [] [] [] []
        [] 5 9
      = Except.ok ((CMSZeroRawLeg sched2stub 1 [100] 7 2 (some 1) [] [] []
          [] [] 5).map (withVol 9)) := rfl
  have hA : CMSInArrearsCouponVector sched2stub 1 [100] 7 2 (some 1) [] []
        [] [] [] 5 9
      = Except.ok ((CMSInArrearsRawLeg sched2stub 1 [100] 7 2 (some 1) [] []
          [] [] [] 5).map (withVol 9)) := rfl
  have hirr : sched2stub.isRegular 1 = false := rfl
  exact ⟨hirr, hF, hC, hZ, hA,
    (C10_stub_convention_asymmetry hirr hF hC hZ hA).1⟩

end QuantLib

